import Mathlib

/-!
Verification of the Sensitive-Data Cryptography & External Document-Issuance
Orchestration subsystem of a case-management backend.

The Python sources are shallowly embedded as Lean definitions:

* `backend/app/models/document.py` — `DocumentType`, `DocumentStatus`,
  `RequiredDocument` rows;
* `backend/app/schemas/document.py` — `AUTO_AVAILABLE_DOCUMENTS`,
  `DOCUMENT_NAMES`;
* `backend/app/services/document_service.py` — `DocumentService`
  (`auto_issue_document`, `_update_required_status`,
  `get_missing_documents`, `batch_auto_issue`);
* `backend/app/services/hyphen_service.py` — `HyphenService`
  (`_pad`, `_get_iv`, `encrypt_data`, `_get_access_token`);
* `backend/app/services/certificate_service.py` — `CertificateService`
  (`extract_certificate_info`, `validate_certificate`);
* `backend/app/core/security.py` — `encrypt_sensitive_data`,
  `decrypt_sensitive_data`.

The database session is modelled as an explicit list of `RequiredDocument`
rows threaded through the orchestrator; external network calls (the Hyphen
HTTP endpoints, the filesystem document store, the PKCS#12 parser of the
`cryptography` package, AES and Fernet primitives) are modelled as explicit
oracle parameters, so that every embedded operation is a total function and
"never raises" becomes totality of the embedding.
-/

namespace RehabDocs

/-- Document type enum, from `backend/app/models/document.py` (`DocumentType`). -/
inductive DocumentType where
  | family_relation_cert
  | marriage_cert
  | resident_register
  | resident_abstract
  | lease_contract
  | free_residence_confirm
  | debt_certificate
  | local_tax_cert
  | land_registry
  | real_estate_register
  | building_register
  | land_register
  | vehicle_register
  | vehicle_price
  | insurance_status
  | insurance_refund
  | health_insurance_cert
  | pension_cert
  | income_cert
  | health_insurance_payment
  | employment_cert
  | salary_statement
  | withholding_tax
  | severance_cert
  | business_license
  | vat_cert
  | financial_statement
  | bank_statement
  | credit_card_statement
  | credit_education_cert
  | previous_case_docs
  | divorce_docs
  | other
deriving DecidableEq, Repr

/-- Document status enum, from `backend/app/models/document.py` (`DocumentStatus`). -/
inductive DocumentStatus where
  | not_started
  | in_progress
  | completed
  | required
  | not_required
deriving DecidableEq, Repr

/-- The `.value` string of each `DocumentType` member (the enum is a `str` enum). -/
def DocumentType.value : DocumentType → String
  | .family_relation_cert => "family_relation_cert"
  | .marriage_cert => "marriage_cert"
  | .resident_register => "resident_register"
  | .resident_abstract => "resident_abstract"
  | .lease_contract => "lease_contract"
  | .free_residence_confirm => "free_residence_confirm"
  | .debt_certificate => "debt_certificate"
  | .local_tax_cert => "local_tax_cert"
  | .land_registry => "land_registry"
  | .real_estate_register => "real_estate_register"
  | .building_register => "building_register"
  | .land_register => "land_register"
  | .vehicle_register => "vehicle_register"
  | .vehicle_price => "vehicle_price"
  | .insurance_status => "insurance_status"
  | .insurance_refund => "insurance_refund"
  | .health_insurance_cert => "health_insurance_cert"
  | .pension_cert => "pension_cert"
  | .income_cert => "income_cert"
  | .health_insurance_payment => "health_insurance_payment"
  | .employment_cert => "employment_cert"
  | .salary_statement => "salary_statement"
  | .withholding_tax => "withholding_tax"
  | .severance_cert => "severance_cert"
  | .business_license => "business_license"
  | .vat_cert => "vat_cert"
  | .financial_statement => "financial_statement"
  | .bank_statement => "bank_statement"
  | .credit_card_statement => "credit_card_statement"
  | .credit_education_cert => "credit_education_cert"
  | .previous_case_docs => "previous_case_docs"
  | .divorce_docs => "divorce_docs"
  | .other => "other"

/-- `AUTO_AVAILABLE_DOCUMENTS` from `backend/app/schemas/document.py`:
`dict.get(document_type, False)` truthiness as a `Bool`-valued function. -/
def AUTO_AVAILABLE_DOCUMENTS : DocumentType → Bool
  | .health_insurance_cert => true
  | .pension_cert => true
  | .insurance_status => true
  | .real_estate_register => true
  | .building_register => true
  | .land_register => true
  | .vehicle_register => true
  | _ => false

/-- `DOCUMENT_NAMES` from `backend/app/schemas/document.py`
(`dict.get` returns `None` on a missing key; the table covers every member). -/
def DOCUMENT_NAMES : DocumentType → Option String
  | .family_relation_cert => some "가족관계증명서"
  | .marriage_cert => some "혼인관계증명서"
  | .resident_register => some "주민등록등본"
  | .resident_abstract => some "주민등록초본"
  | .lease_contract => some "임대차계약서"
  | .free_residence_confirm => some "무상거주확인서"
  | .debt_certificate => some "부채증명서"
  | .local_tax_cert => some "지방세 세목별 과세증명서"
  | .land_registry => some "지적전산자료조회결과"
  | .real_estate_register => some "등기사항전부증명서"
  | .building_register => some "건축물대장"
  | .land_register => some "토지대장"
  | .vehicle_register => some "자동차등록원부"
  | .vehicle_price => some "자동차 시가확인자료"
  | .insurance_status => some "보험가입내역조회"
  | .insurance_refund => some "해약환급금 내역"
  | .health_insurance_cert => some "건강보험자격득실확인서"
  | .pension_cert => some "연금산정용 가입내역확인서"
  | .income_cert => some "소득금액증명"
  | .health_insurance_payment => some "건강보험료확인서"
  | .employment_cert => some "재직증명서"
  | .salary_statement => some "급여명세서"
  | .withholding_tax => some "근로소득원천징수영수증"
  | .severance_cert => some "퇴직금확인서"
  | .business_license => some "사업자등록증"
  | .vat_cert => some "부가가치세과세표준증명"
  | .financial_statement => some "표준재무제표증명"
  | .bank_statement => some "금융계좌 거래내역서"
  | .credit_card_statement => some "신용카드 사용내역서"
  | .credit_education_cert => some "신용교육 이수증"
  | .previous_case_docs => some "과거 회생/파산 서류"
  | .divorce_docs => some "이혼 관련 서류"
  | .other => some "기타 서류"

/-- A `required_documents` row (`RequiredDocument` in
`backend/app/models/document.py`), restricted to the columns the
orchestrator reads or writes. -/
structure RequiredDocument where
  case_id : Nat
  document_type : DocumentType
  is_required : Bool
  status : DocumentStatus
  document_id : Option Nat
deriving DecidableEq, Repr

/-- The database session state seen by `DocumentService`: the list of
`required_documents` rows. -/
abbrev DB := List RequiredDocument

/-- The JSON dict returned by a Hyphen endpoint call, restricted to the keys
`document_service.py` reads: `code`, `success`, `message`, `data`
(each absent key modelled as `none`; `success` truthiness as `Bool`). -/
structure ApiResponse where
  code : Option String
  success : Bool
  message : Option String
  data : Option String
deriving DecidableEq, Repr

/-- The result dict returned by `DocumentService.auto_issue_document`
(keys `success`, `error`, `code`, `document_id`, `data`; absent keys are
`none`). -/
structure IssueResult where
  success : Bool
  error : Option String
  code : Option String
  document_id : Option Nat
  data : Option String
deriving DecidableEq, Repr

/-- `DocumentService._call_hyphen_api`.  The first two `elif` branches
dispatch to `HyphenService` coroutines, whose network responses are the
oracle `api` (a raised exception from the HTTP layer is `Except.error`).
The third branch condition evaluates `DocumentType.NATIONAL_PENSION`, a
member that does not exist in the `DocumentType` enum, so for every other
document type the comparison itself raises `AttributeError` before any
later branch (including the final `else` that raises `ValueError`) can be
reached. -/
def call_hyphen_api (api : DocumentType → Except String ApiResponse)
    (dt : DocumentType) : Except String ApiResponse :=
  match dt with
  | .health_insurance_cert => api dt
  | .health_insurance_payment => api dt
  | _ => .error "type object DocumentType has no attribute NATIONAL_PENSION"

/-- The body of `DocumentService._update_required_status` applied to the row
found by `scalar_one_or_none`: `status` is always assigned; `document_id`
only under Python truthiness of the argument (`if document_id:`), so `None`
and `0` leave the stored value. -/
def applyStatusUpdate (st : DocumentStatus) (docId : Option Nat)
    (r : RequiredDocument) : RequiredDocument :=
  { r with
    status := st
    document_id :=
      match docId with
      | some i => if i ≠ 0 then some i else r.document_id
      | none => r.document_id }

/-- The `where` filter of `_update_required_status` and
`get_missing_documents`: the row belongs to `(case_id, document_type)`. -/
def matchesKey (caseId : Nat) (dt : DocumentType) (r : RequiredDocument) : Bool :=
  r.case_id == caseId && r.document_type == dt

/-- `DocumentService._update_required_status`: select the
`required_documents` row for `(case_id, document_type)` and mutate it in
place; no row means no write.  (`scalar_one_or_none` presumes at most one
matching row; the embedding updates the first match.) -/
def update_required_status (db : DB) (caseId : Nat) (dt : DocumentType)
    (st : DocumentStatus) (docId : Option Nat) : DB :=
  match db.findIdx? (matchesKey caseId dt) with
  | some i =>
    match db[i]? with
    | some r => db.set i (applyStatusUpdate st docId r)
    | none => db
  | none => db

/-- The Hyphen success test of `auto_issue_document`:
`result.get("code") == "0000" or result.get("success")`. -/
def isSuccessResp (resp : ApiResponse) : Bool :=
  resp.code == some "0000" || resp.success

/-- `DocumentService.auto_issue_document`.  `api` is the Hyphen HTTP oracle
(`Except.error` = the coroutine raised); `save` is the
`_save_document` oracle, returning the persisted `Document` row id or the
exception it raised (filesystem or DB failure).  The Python method can only
raise from these two collaborators, and both raises are caught by its
`try`/`except`, so the embedding is a total function: the call always
returns a result dict together with the updated session state. -/
def auto_issue_document (api : DocumentType → Except String ApiResponse)
    (save : DocumentType → Except String Nat) (db : DB) (caseId : Nat)
    (dt : DocumentType) : IssueResult × DB :=
  if AUTO_AVAILABLE_DOCUMENTS dt = false then
    ({ success := false, error := some "자동 발급이 지원되지 않는 서류입니다",
       code := none, document_id := none, data := none }, db)
  else
    let db1 := update_required_status db caseId dt .in_progress none
    match call_hyphen_api api dt with
    | .error e =>
      ({ success := false, error := some e, code := none,
         document_id := none, data := none },
       update_required_status db1 caseId dt .not_started none)
    | .ok resp =>
      if isSuccessResp resp then
        match save dt with
        | .ok docId =>
          ({ success := true, error := none, code := none,
             document_id := some docId, data := resp.data },
           update_required_status db1 caseId dt .completed (some docId))
        | .error e =>
          ({ success := false, error := some e, code := none,
             document_id := none, data := none },
           update_required_status db1 caseId dt .not_started none)
      else
        ({ success := false, error := some (resp.message.getD "알 수 없는 오류"),
           code := resp.code, document_id := none, data := none },
         update_required_status db1 caseId dt .not_started none)

/-- One entry of `DocumentService.get_missing_documents`: the dict
`{document_type, document_name, status, auto_available}` (the raw
`document_type.value` string round-trips through `DocumentType(...)` in
`batch_auto_issue`, so the enum member is kept directly). -/
structure MissingDoc where
  document_type : DocumentType
  document_name : Option String
  status : DocumentStatus
  auto_available : Bool
deriving DecidableEq, Repr

/-- `DocumentService.get_missing_documents`: rows of the case whose status
is not `COMPLETED` and which are `is_required`, projected to dicts. -/
def get_missing_documents (db : DB) (caseId : Nat) : List MissingDoc :=
  (db.filter (fun r =>
      r.case_id == caseId && r.status != DocumentStatus.completed &&
      r.is_required == true)).map
    (fun r =>
      { document_type := r.document_type
        document_name := DOCUMENT_NAMES r.document_type
        status := r.status
        auto_available := AUTO_AVAILABLE_DOCUMENTS r.document_type })

/-- A member of the `success` list built by `batch_auto_issue`. -/
structure BatchSuccessItem where
  document_type : DocumentType
  document_name : Option String
  document_id : Option Nat
deriving DecidableEq, Repr

/-- A member of the `failed` list built by `batch_auto_issue`. -/
structure BatchFailedItem where
  document_type : DocumentType
  document_name : Option String
  error : Option String
deriving DecidableEq, Repr

/-- The `results` dict of `batch_auto_issue`. -/
structure BatchResult where
  success : List BatchSuccessItem
  failed : List BatchFailedItem
deriving DecidableEq, Repr

/-- The `for doc in auto_available:` loop body of `batch_auto_issue`:
issue each document in turn, threading the session state, and append the
item to `success` or `failed` according to `result["success"]`. -/
def batchLoop (api : DocumentType → Except String ApiResponse)
    (save : DocumentType → Except String Nat) (caseId : Nat) :
    DB → List MissingDoc → BatchResult × DB
  | db, [] => ({ success := [], failed := [] }, db)
  | db, m :: rest =>
    let step := auto_issue_document api save db caseId m.document_type
    let acc := batchLoop api save caseId step.2 rest
    if step.1.success then
      ({ success := { document_type := m.document_type
                      document_name := m.document_name
                      document_id := step.1.document_id } :: acc.1.success
         failed := acc.1.failed }, acc.2)
    else
      ({ success := acc.1.success
         failed := { document_type := m.document_type
                     document_name := m.document_name
                     error := step.1.error } :: acc.1.failed }, acc.2)

/-- `DocumentService.batch_auto_issue`: enumerate the case's missing
documents, keep the auto-available ones, and issue each independently. -/
def batch_auto_issue (api : DocumentType → Except String ApiResponse)
    (save : DocumentType → Except String Nat) (db : DB) (caseId : Nat) :
    BatchResult × DB :=
  let missing := get_missing_documents db caseId
  let auto_available := missing.filter (fun d => d.auto_available)
  batchLoop api save caseId db auto_available

/-! ### Database well-formedness and the pointwise form of status updates -/

/-- The `(case_id, document_type)` key of a row. -/
def keyFn (r : RequiredDocument) : Nat × DocumentType := (r.case_id, r.document_type)

/-- Well-formedness of the session state: at most one `required_documents`
row per `(case_id, document_type)` pair, the premise under which
`scalar_one_or_none` is well defined. -/
def keysNodup (db : DB) : Prop := (db.map keyFn).Nodup

instance (db : DB) : Decidable (keysNodup db) :=
  List.nodupDecidable (db.map keyFn)

/-- The pointwise effect of `_update_required_status` on a single row. -/
def updFn (caseId : Nat) (dt : DocumentType) (st : DocumentStatus)
    (docId : Option Nat) (r : RequiredDocument) : RequiredDocument :=
  if matchesKey caseId dt r then applyStatusUpdate st docId r else r

theorem matchesKey_eq_true_iff {caseId : Nat} {dt : DocumentType}
    {r : RequiredDocument} :
    matchesKey caseId dt r = true ↔ r.case_id = caseId ∧ r.document_type = dt := by
  simp [matchesKey]

theorem keyFn_applyStatusUpdate (st : DocumentStatus) (docId : Option Nat)
    (r : RequiredDocument) : keyFn (applyStatusUpdate st docId r) = keyFn r := rfl

theorem keyFn_updFn (caseId : Nat) (dt : DocumentType) (st : DocumentStatus)
    (docId : Option Nat) (r : RequiredDocument) :
    keyFn (updFn caseId dt st docId r) = keyFn r := by
  unfold updFn
  split <;> rfl

theorem map_updFn_of_no_match {caseId : Nat} {dt : DocumentType}
    {st : DocumentStatus} {docId : Option Nat} {l : DB}
    (h : ∀ r ∈ l, matchesKey caseId dt r = false) :
    l.map (updFn caseId dt st docId) = l := by
  have h2 : l.map (updFn caseId dt st docId) = l.map id :=
    List.map_congr_left (fun r hr => by simp [updFn, h r hr])
  simpa using h2

theorem update_eq_map (db : DB) (caseId : Nat) (dt : DocumentType)
    (st : DocumentStatus) (docId : Option Nat) (h : keysNodup db) :
    update_required_status db caseId dt st docId =
      db.map (updFn caseId dt st docId) := by
  unfold update_required_status
  cases hfi : db.findIdx? (matchesKey caseId dt) with
  | none =>
    have hnone := List.findIdx?_eq_none_iff.mp hfi
    exact (map_updFn_of_no_match hnone).symm
  | some i =>
    obtain ⟨hi, hpi, _⟩ := List.findIdx?_eq_some_iff_getElem.mp hfi
    dsimp only
    rw [List.getElem?_eq_getElem hi]
    apply List.ext_getElem?
    intro n
    by_cases hn : n = i
    · subst hn
      rw [List.getElem?_set_self hi, List.getElem?_map,
        List.getElem?_eq_getElem hi]
      simp [updFn, hpi]
    · rw [List.getElem?_set_ne (fun he => hn he.symm), List.getElem?_map]
      cases hg : db[n]? with
      | none => rfl
      | some r =>
        have hfalse : matchesKey caseId dt r = false := by
          by_contra hb
          have hbt : matchesKey caseId dt r = true := by
            cases hmk : matchesKey caseId dt r
            · exact absurd hmk hb
            · rfl
          obtain ⟨hc1, hc2⟩ := matchesKey_eq_true_iff.mp hbt
          obtain ⟨hp1, hp2⟩ := matchesKey_eq_true_iff.mp hpi
          have h1 : (db.map keyFn)[n]? = some (caseId, dt) := by
            rw [List.getElem?_map, hg]
            simp [keyFn, hc1, hc2]
          have h2 : (db.map keyFn)[i]? = some (caseId, dt) := by
            rw [List.getElem?_map, List.getElem?_eq_getElem hi]
            simp [keyFn, hp1, hp2]
          have hnlt2 : n < (db.map keyFn).length := by
            obtain ⟨hnlt, _⟩ := List.getElem?_eq_some.mp hg
            simpa using hnlt
          exact hn (List.getElem?_inj hnlt2 h (by rw [h1, h2]))
        simp [updFn, hfalse]

theorem keysNodup_map_updFn {db : DB} (caseId : Nat) (dt : DocumentType)
    (st : DocumentStatus) (docId : Option Nat) (h : keysNodup db) :
    keysNodup (db.map (updFn caseId dt st docId)) := by
  unfold keysNodup
  rw [List.map_map]
  have : (keyFn ∘ updFn caseId dt st docId) = keyFn := by
    funext r
    exact keyFn_updFn caseId dt st docId r
  rw [this]
  exact h

/-! ### Characterisation of a single issuance -/

/-- Whether the whole issuance of `dt` succeeds: the Hyphen call returned a
success response and persisting the document did not raise. -/
def issueOk (api : DocumentType → Except String ApiResponse)
    (save : DocumentType → Except String Nat) (dt : DocumentType) : Bool :=
  match call_hyphen_api api dt with
  | .ok resp =>
    isSuccessResp resp &&
      (match save dt with
       | .ok _ => true
       | .error _ => false)
  | .error _ => false

/-- The `document_id` argument passed to the final status update. -/
def issueDocId (api : DocumentType → Except String ApiResponse)
    (save : DocumentType → Except String Nat) (dt : DocumentType) : Option Nat :=
  match call_hyphen_api api dt with
  | .ok resp =>
    if isSuccessResp resp then
      match save dt with
      | .ok i => some i
      | .error _ => none
    else none
  | .error _ => none

/-- The result dict of `auto_issue_document` on an auto-available type;
it does not depend on the session state. -/
def issueResult (api : DocumentType → Except String ApiResponse)
    (save : DocumentType → Except String Nat) (dt : DocumentType) : IssueResult :=
  match call_hyphen_api api dt with
  | .error e =>
    { success := false, error := some e, code := none,
      document_id := none, data := none }
  | .ok resp =>
    if isSuccessResp resp then
      match save dt with
      | .ok i =>
        { success := true, error := none, code := none,
          document_id := some i, data := resp.data }
      | .error e =>
        { success := false, error := some e, code := none,
          document_id := none, data := none }
    else
      { success := false, error := some (resp.message.getD "알 수 없는 오류"),
        code := resp.code, document_id := none, data := none }

/-- The net pointwise effect of one `auto_issue_document` call on a row:
the `IN_PROGRESS` write followed by the terminal write. -/
def itemUpdate (api : DocumentType → Except String ApiResponse)
    (save : DocumentType → Except String Nat) (caseId : Nat)
    (dt : DocumentType) (r : RequiredDocument) : RequiredDocument :=
  updFn caseId dt
    (if issueOk api save dt then DocumentStatus.completed
     else DocumentStatus.not_started)
    (issueDocId api save dt)
    (updFn caseId dt DocumentStatus.in_progress none r)

theorem auto_issue_fst (api : DocumentType → Except String ApiResponse)
    (save : DocumentType → Except String Nat) (db : DB) (caseId : Nat)
    (dt : DocumentType) (hauto : AUTO_AVAILABLE_DOCUMENTS dt = true) :
    (auto_issue_document api save db caseId dt).1 = issueResult api save dt := by
  unfold auto_issue_document issueResult
  rw [if_neg (by simp [hauto])]
  cases hapi : call_hyphen_api api dt with
  | error e => rfl
  | ok resp =>
    dsimp only
    by_cases hs : isSuccessResp resp
    · rw [if_pos hs, if_pos hs]
      cases hsave : save dt <;> rfl
    · rw [if_neg hs, if_neg hs]

theorem auto_issue_snd (api : DocumentType → Except String ApiResponse)
    (save : DocumentType → Except String Nat) (db : DB) (caseId : Nat)
    (dt : DocumentType) (hauto : AUTO_AVAILABLE_DOCUMENTS dt = true)
    (hdb : keysNodup db) :
    (auto_issue_document api save db caseId dt).2 =
      db.map (itemUpdate api save caseId dt) := by
  have hdb1 := keysNodup_map_updFn caseId dt DocumentStatus.in_progress none hdb
  unfold auto_issue_document itemUpdate issueOk issueDocId
  rw [if_neg (by simp [hauto])]
  cases hapi : call_hyphen_api api dt with
  | error e =>
    dsimp only
    rw [update_eq_map _ _ _ _ _ hdb, update_eq_map _ _ _ _ _ hdb1, List.map_map]
    rfl
  | ok resp =>
    dsimp only
    by_cases hs : isSuccessResp resp
    · rw [if_pos hs]
      simp only [hs, Bool.true_and]
      cases hsave : save dt with
      | ok i =>
        dsimp only
        rw [update_eq_map _ _ _ _ _ hdb, update_eq_map _ _ _ _ _ hdb1,
          List.map_map]
        rfl
      | error e =>
        dsimp only
        rw [update_eq_map _ _ _ _ _ hdb, update_eq_map _ _ _ _ _ hdb1,
          List.map_map]
        rfl
    · rw [if_neg hs]
      simp only [Bool.not_eq_true] at hs
      simp only [hs, Bool.false_and]
      rw [update_eq_map _ _ _ _ _ hdb, update_eq_map _ _ _ _ _ hdb1,
        List.map_map]
      rfl

theorem issueResult_success (api : DocumentType → Except String ApiResponse)
    (save : DocumentType → Except String Nat) (dt : DocumentType) :
    (issueResult api save dt).success = issueOk api save dt := by
  unfold issueResult issueOk
  cases call_hyphen_api api dt with
  | error e => rfl
  | ok resp =>
    dsimp only
    by_cases hs : isSuccessResp resp
    · rw [if_pos hs]
      simp only [hs, Bool.true_and]
      cases save dt <;> rfl
    · rw [if_neg hs]
      simp only [Bool.not_eq_true] at hs
      simp only [hs, Bool.false_and]

theorem issueResult_of_ok (api : DocumentType → Except String ApiResponse)
    (save : DocumentType → Except String Nat) (dt : DocumentType)
    (h : issueOk api save dt = true) :
    ∃ i, save dt = .ok i ∧ (issueResult api save dt).document_id = some i ∧
      issueDocId api save dt = some i := by
  unfold issueOk at h
  unfold issueResult issueDocId
  cases hapi : call_hyphen_api api dt with
  | error e => rw [hapi] at h; exact absurd h (by simp)
  | ok resp =>
    rw [hapi] at h
    dsimp only at h ⊢
    by_cases hs : isSuccessResp resp
    · rw [if_pos hs, if_pos hs]
      cases hsave : save dt with
      | ok i => exact ⟨i, rfl, rfl, rfl⟩
      | error e => rw [hsave] at h; simp at h
    · simp only [Bool.not_eq_true] at hs
      rw [hs] at h
      simp at h

theorem issueResult_of_fail (api : DocumentType → Except String ApiResponse)
    (save : DocumentType → Except String Nat) (dt : DocumentType)
    (h : issueOk api save dt = false) :
    ((issueResult api save dt).error).isSome = true := by
  unfold issueOk at h
  unfold issueResult
  cases hapi : call_hyphen_api api dt with
  | error e => rfl
  | ok resp =>
    rw [hapi] at h
    dsimp only at h ⊢
    by_cases hs : isSuccessResp resp
    · rw [if_pos hs]
      simp only [hs, Bool.true_and] at h
      cases hsave : save dt with
      | ok i => rw [hsave] at h; simp at h
      | error e => rfl
    · rw [if_neg hs]
      rfl

theorem itemUpdate_keyFn (api : DocumentType → Except String ApiResponse)
    (save : DocumentType → Except String Nat) (caseId : Nat)
    (dt : DocumentType) (r : RequiredDocument) :
    keyFn (itemUpdate api save caseId dt r) = keyFn r := by
  unfold itemUpdate
  rw [keyFn_updFn, keyFn_updFn]

theorem itemUpdate_of_no_match (api : DocumentType → Except String ApiResponse)
    (save : DocumentType → Except String Nat) (caseId : Nat)
    (dt : DocumentType) (r : RequiredDocument)
    (h : matchesKey caseId dt r = false) :
    itemUpdate api save caseId dt r = r := by
  unfold itemUpdate updFn
  rw [h]
  simp only [Bool.false_eq_true, if_false]
  rw [h]
  simp

theorem matchesKey_updFn (caseId : Nat) (dt : DocumentType)
    (st : DocumentStatus) (docId : Option Nat) (r : RequiredDocument) :
    matchesKey caseId dt (updFn caseId dt st docId r) = matchesKey caseId dt r := by
  unfold updFn
  split <;> rfl

theorem matchesKey_applyStatusUpdate (caseId : Nat) (dt : DocumentType)
    (st : DocumentStatus) (docId : Option Nat) (r : RequiredDocument) :
    matchesKey caseId dt (applyStatusUpdate st docId r) =
      matchesKey caseId dt r := rfl

theorem itemUpdate_of_match (api : DocumentType → Except String ApiResponse)
    (save : DocumentType → Except String Nat) (caseId : Nat)
    (dt : DocumentType) (r : RequiredDocument)
    (h : matchesKey caseId dt r = true) :
    (itemUpdate api save caseId dt r).status =
      (if issueOk api save dt then DocumentStatus.completed
       else DocumentStatus.not_started) ∧
    (itemUpdate api save caseId dt r).document_id =
      (match issueDocId api save dt with
       | some i => if i ≠ 0 then some i else r.document_id
       | none => r.document_id) := by
  unfold itemUpdate updFn
  simp only [h, matchesKey_applyStatusUpdate, if_pos]
  constructor
  · rfl
  · unfold applyStatusUpdate
    cases issueDocId api save dt <;> simp

/-! ### Claims about the orchestrator -/

/-- Claim C1: every `auto_issue_document` call on an auto-issuable document
type returns a result rather than raising (the embedding is a total
function whose only failure channels, the Hyphen call and `_save_document`,
are `Except` oracles caught by the `try`/`except`); after it returns the
row's status is never `IN_PROGRESS`; on gateway success the status is
`COMPLETED` with the persisted document id attached, and on any gateway
failure or exception the status is reverted to `NOT_STARTED` and the result
carries `success=False` with an error message. -/
theorem c1_issue_contract (api : DocumentType → Except String ApiResponse)
    (save : DocumentType → Except String Nat) (db : DB) (caseId : Nat)
    (dt : DocumentType) (hauto : AUTO_AVAILABLE_DOCUMENTS dt = true)
    (hdb : keysNodup db) :
    (∀ r' ∈ (auto_issue_document api save db caseId dt).2,
        r'.case_id = caseId → r'.document_type = dt →
          r'.status ≠ DocumentStatus.in_progress) ∧
    (issueOk api save dt = true →
      (auto_issue_document api save db caseId dt).1.success = true ∧
      ∃ i, save dt = .ok i ∧
        (auto_issue_document api save db caseId dt).1.document_id = some i ∧
        ∀ r' ∈ (auto_issue_document api save db caseId dt).2,
          r'.case_id = caseId → r'.document_type = dt →
            r'.status = DocumentStatus.completed ∧
            (i ≠ 0 → r'.document_id = some i)) ∧
    (issueOk api save dt = false →
      (auto_issue_document api save db caseId dt).1.success = false ∧
      ((auto_issue_document api save db caseId dt).1.error).isSome = true ∧
      ∀ r' ∈ (auto_issue_document api save db caseId dt).2,
        r'.case_id = caseId → r'.document_type = dt →
          r'.status = DocumentStatus.not_started) := by
  rw [auto_issue_snd api save db caseId dt hauto hdb,
    auto_issue_fst api save db caseId dt hauto]
  have hmem : ∀ r' ∈ db.map (itemUpdate api save caseId dt),
      r'.case_id = caseId → r'.document_type = dt →
        r'.status = (if issueOk api save dt then DocumentStatus.completed
          else DocumentStatus.not_started) ∧
        r'.document_id = (match issueDocId api save dt with
          | some i => if i ≠ 0 then some i else r'.document_id
          | none => r'.document_id) ∨
        r'.status = (if issueOk api save dt then DocumentStatus.completed
          else DocumentStatus.not_started) := by
    intro r' hr' hc hd
    right
    obtain ⟨r, hrdb, hr⟩ := List.mem_map.mp hr'
    cases hmk : matchesKey caseId dt r with
    | false =>
      rw [itemUpdate_of_no_match api save caseId dt r hmk] at hr
      subst hr
      rw [matchesKey_eq_true_iff.mpr ⟨hc, hd⟩] at hmk
      exact absurd hmk (by simp)
    | true =>
      subst hr
      exact (itemUpdate_of_match api save caseId dt r hmk).1
  refine ⟨?_, ?_, ?_⟩
  · intro r' hr' hc hd
    rcases hmem r' hr' hc hd with h | h
    · rw [h.2] at h
      cases hio : issueOk api save dt <;> rw [hio] at h <;> simp_all
    · cases hio : issueOk api save dt <;> rw [hio] at h <;> simp_all
  · intro hok
    obtain ⟨i, hsave, hdoc, hdid⟩ := issueResult_of_ok api save dt hok
    refine ⟨by rw [issueResult_success, hok], i, hsave, hdoc, ?_⟩
    intro r' hr' hc hd
    obtain ⟨r, hrdb, hr⟩ := List.mem_map.mp hr'
    cases hmk : matchesKey caseId dt r with
    | false =>
      rw [itemUpdate_of_no_match api save caseId dt r hmk] at hr
      subst hr
      rw [matchesKey_eq_true_iff.mpr ⟨hc, hd⟩] at hmk
      exact absurd hmk (by simp)
    | true =>
      subst hr
      obtain ⟨hst, hdi⟩ := itemUpdate_of_match api save caseId dt r hmk
      rw [hok] at hst
      refine ⟨by simpa using hst, ?_⟩
      intro hi0
      rw [hdid] at hdi
      simpa [hi0] using hdi
  · intro hfail
    refine ⟨by rw [issueResult_success, hfail], issueResult_of_fail api save dt hfail, ?_⟩
    intro r' hr' hc hd
    obtain ⟨r, hrdb, hr⟩ := List.mem_map.mp hr'
    cases hmk : matchesKey caseId dt r with
    | false =>
      rw [itemUpdate_of_no_match api save caseId dt r hmk] at hr
      subst hr
      rw [matchesKey_eq_true_iff.mpr ⟨hc, hd⟩] at hmk
      exact absurd hmk (by simp)
    | true =>
      subst hr
      have hst := (itemUpdate_of_match api save caseId dt r hmk).1
      rw [hfail] at hst
      simpa using hst

/-- Witness for C1 at a concrete input: a single matching row, a successful
gateway response, and a successful save with document id 7. -/
theorem c1_issue_contract_witness :
    AUTO_AVAILABLE_DOCUMENTS DocumentType.health_insurance_cert = true ∧
    keysNodup [{ case_id := 1,
                 document_type := DocumentType.health_insurance_cert,
                 is_required := true, status := DocumentStatus.not_started,
                 document_id := none }] ∧
    (∀ r' ∈ (auto_issue_document
        (fun _ => .ok { code := some "0000", success := false, message := none,
                        data := some "payload" })
        (fun _ => .ok 7)
        [{ case_id := 1, document_type := DocumentType.health_insurance_cert,
           is_required := true, status := DocumentStatus.not_started,
           document_id := none }] 1 DocumentType.health_insurance_cert).2,
      r'.case_id = 1 → r'.document_type = DocumentType.health_insurance_cert →
        r'.status ≠ DocumentStatus.in_progress) :=
  ⟨by decide, by decide,
    (c1_issue_contract
      (fun _ => .ok { code := some "0000", success := false, message := none,
                      data := some "payload" })
      (fun _ => .ok 7)
      [{ case_id := 1, document_type := DocumentType.health_insurance_cert,
         is_required := true, status := DocumentStatus.not_started,
         document_id := none }] 1 DocumentType.health_insurance_cert
      (by decide) (by decide)).1⟩

/-- Claim C9: on a document type that is not auto-issuable,
`auto_issue_document` returns a failure dict immediately and the session
state is returned untouched — no status write at all happens on this
early-return path. -/
theorem c9_not_auto_frame (api : DocumentType → Except String ApiResponse)
    (save : DocumentType → Except String Nat) (db : DB) (caseId : Nat)
    (dt : DocumentType) (h : AUTO_AVAILABLE_DOCUMENTS dt = false) :
    auto_issue_document api save db caseId dt =
      ({ success := false, error := some "자동 발급이 지원되지 않는 서류입니다",
         code := none, document_id := none, data := none }, db) := by
  unfold auto_issue_document
  rw [if_pos h]

/-- Witness for C9: a non-auto type with a row already `IN_PROGRESS`; the
row list comes back exactly as it went in. -/
theorem c9_not_auto_frame_witness :
    AUTO_AVAILABLE_DOCUMENTS DocumentType.family_relation_cert = false ∧
    auto_issue_document (fun _ => .error "down") (fun _ => .error "io")
      [{ case_id := 3, document_type := DocumentType.family_relation_cert,
         is_required := true, status := DocumentStatus.in_progress,
         document_id := some 2 }] 3 DocumentType.family_relation_cert =
      ({ success := false, error := some "자동 발급이 지원되지 않는 서류입니다",
         code := none, document_id := none, data := none },
       [{ case_id := 3, document_type := DocumentType.family_relation_cert,
          is_required := true, status := DocumentStatus.in_progress,
          document_id := some 2 }]) :=
  ⟨by decide,
    c9_not_auto_frame (fun _ => .error "down") (fun _ => .error "io")
      [{ case_id := 3, document_type := DocumentType.family_relation_cert,
         is_required := true, status := DocumentStatus.in_progress,
         document_id := some 2 }] 3 DocumentType.family_relation_cert (by decide)⟩

/-! ### Characterisation of a batch run -/

/-- The net effect on a single row of issuing the listed document types in
order. -/
def multiUpdate (api : DocumentType → Except String ApiResponse)
    (save : DocumentType → Except String Nat) (caseId : Nat)
    (dts : List DocumentType) (r : RequiredDocument) : RequiredDocument :=
  dts.foldl (fun r dt => itemUpdate api save caseId dt r) r

theorem keysNodup_map_itemUpdate {db : DB}
    (api : DocumentType → Except String ApiResponse)
    (save : DocumentType → Except String Nat) (caseId : Nat)
    (dt : DocumentType) (h : keysNodup db) :
    keysNodup (db.map (itemUpdate api save caseId dt)) := by
  unfold keysNodup
  rw [List.map_map]
  have he : (keyFn ∘ itemUpdate api save caseId dt) = keyFn := by
    funext r
    exact itemUpdate_keyFn api save caseId dt r
  rw [he]
  exact h

theorem batchLoop_snd (api : DocumentType → Except String ApiResponse)
    (save : DocumentType → Except String Nat) (caseId : Nat) (db : DB)
    (L : List MissingDoc)
    (hL : ∀ m ∈ L, AUTO_AVAILABLE_DOCUMENTS m.document_type = true)
    (hdb : keysNodup db) :
    (batchLoop api save caseId db L).2 =
      db.map (multiUpdate api save caseId (L.map (fun m => m.document_type))) := by
  induction L generalizing db with
  | nil =>
    show db = _
    simp only [List.map_nil]
    rw [show multiUpdate api save caseId [] = fun r => r from rfl]
    simp
  | cons m rest ih =>
    have hm := hL m (List.mem_cons_self m rest)
    have hrest : ∀ m' ∈ rest, AUTO_AVAILABLE_DOCUMENTS m'.document_type = true :=
      fun m' hm' => hL m' (List.mem_cons_of_mem m hm')
    have hsnd := auto_issue_snd api save db caseId m.document_type hm hdb
    have hdb' := keysNodup_map_itemUpdate api save caseId m.document_type hdb
    unfold batchLoop
    rcases hb : (auto_issue_document api save db caseId m.document_type) with ⟨res, db'⟩
    have hdb'eq : db' = db.map (itemUpdate api save caseId m.document_type) := by
      rw [← hsnd, hb]
    dsimp only
    rw [show (batchLoop api save caseId db' rest) =
        batchLoop api save caseId db' rest from rfl]
    by_cases hres : res.success = true
    · simp only [hres, if_true]
      rw [ih db' hrest (by rw [hdb'eq]; exact hdb'), hdb'eq, List.map_map]
      rfl
    · simp only [hres]
      rw [if_neg (by simp [hres])]
      rw [ih db' hrest (by rw [hdb'eq]; exact hdb'), hdb'eq, List.map_map]
      rfl

theorem batchLoop_fst (api : DocumentType → Except String ApiResponse)
    (save : DocumentType → Except String Nat) (caseId : Nat) (db : DB)
    (L : List MissingDoc)
    (hL : ∀ m ∈ L, AUTO_AVAILABLE_DOCUMENTS m.document_type = true) :
    (batchLoop api save caseId db L).1.success =
      (L.filter (fun m => issueOk api save m.document_type)).map
        (fun m =>
          { document_type := m.document_type
            document_name := m.document_name
            document_id := (issueResult api save m.document_type).document_id }) ∧
    (batchLoop api save caseId db L).1.failed =
      (L.filter (fun m => !issueOk api save m.document_type)).map
        (fun m =>
          { document_type := m.document_type
            document_name := m.document_name
            error := (issueResult api save m.document_type).error }) := by
  induction L generalizing db with
  | nil => simp [batchLoop]
  | cons m rest ih =>
    have hm := hL m (List.mem_cons_self m rest)
    have hrest : ∀ m' ∈ rest, AUTO_AVAILABLE_DOCUMENTS m'.document_type = true :=
      fun m' hm' => hL m' (List.mem_cons_of_mem m hm')
    unfold batchLoop
    rcases hb : (auto_issue_document api save db caseId m.document_type) with ⟨res, db'⟩
    have hres : res = issueResult api save m.document_type := by
      rw [← auto_issue_fst api save db caseId m.document_type hm, hb]
    obtain ⟨ihs, ihf⟩ := ih db' hrest
    dsimp only
    cases hok : issueOk api save m.document_type with
    | true =>
      have hsucc : res.success = true := by
        rw [hres, issueResult_success, hok]
      rw [if_pos hsucc]
      refine ⟨?_, ?_⟩
      · show _ :: (batchLoop api save caseId db' rest).1.success = _
        rw [ihs, @List.filter_cons_of_pos MissingDoc
          (fun m => issueOk api save m.document_type) m rest hok,
          List.map_cons, hres]
      · show (batchLoop api save caseId db' rest).1.failed = _
        rw [ihf, @List.filter_cons_of_neg MissingDoc
          (fun m => !issueOk api save m.document_type) m rest (by simp [hok])]
    | false =>
      have hsucc : res.success = false := by
        rw [hres, issueResult_success, hok]
      rw [if_neg (by rw [hsucc]; exact Bool.false_ne_true)]
      refine ⟨?_, ?_⟩
      · show (batchLoop api save caseId db' rest).1.success = _
        rw [ihs, @List.filter_cons_of_neg MissingDoc
          (fun m => issueOk api save m.document_type) m rest (by simp [hok])]
      · show _ :: (batchLoop api save caseId db' rest).1.failed = _
        rw [ihf, @List.filter_cons_of_pos MissingDoc
          (fun m => !issueOk api save m.document_type) m rest (by simp [hok]),
          List.map_cons, hres]

theorem eq_of_keyFn_eq {db : DB} (hdb : keysNodup db) {a b : RequiredDocument}
    (ha : a ∈ db) (hb : b ∈ db) (hk : keyFn a = keyFn b) : a = b := by
  obtain ⟨i, hia⟩ := List.getElem?_of_mem ha
  obtain ⟨j, hjb⟩ := List.getElem?_of_mem hb
  have h1 : (db.map keyFn)[i]? = some (keyFn a) := by
    rw [List.getElem?_map, hia]
    rfl
  have h2 : (db.map keyFn)[j]? = some (keyFn b) := by
    rw [List.getElem?_map, hjb]
    rfl
  obtain ⟨hlt, _⟩ := List.getElem?_eq_some.mp h1
  have hij : i = j := List.getElem?_inj hlt hdb (by rw [h1, h2, hk])
  rw [hij] at hia
  rw [hia] at hjb
  exact Option.some.inj hjb

theorem mem_get_missing {db : DB} {caseId : Nat} {m : MissingDoc}
    (hm : m ∈ get_missing_documents db caseId) :
    ∃ r ∈ db, r.case_id = caseId ∧ r.status ≠ DocumentStatus.completed ∧
      r.is_required = true ∧ m.document_type = r.document_type ∧
      m.auto_available = AUTO_AVAILABLE_DOCUMENTS r.document_type ∧
      m.document_name = DOCUMENT_NAMES r.document_type ∧
      m.status = r.status := by
  unfold get_missing_documents at hm
  obtain ⟨r, hrf, hr⟩ := List.mem_map.mp hm
  obtain ⟨hrdb, hcond⟩ := List.mem_filter.mp hrf
  simp only [Bool.and_eq_true, beq_iff_eq, bne_iff_ne, ne_eq] at hcond
  refine ⟨r, hrdb, hcond.1.1, hcond.1.2, hcond.2, ?_, ?_, ?_, ?_⟩ <;>
    rw [← hr]

theorem missing_auto_eq_of_dt_eq {db : DB} {caseId : Nat} {x y : MissingDoc}
    (hdb : keysNodup db) (hx : x ∈ get_missing_documents db caseId)
    (hy : y ∈ get_missing_documents db caseId)
    (hxy : x.document_type = y.document_type) : x = y := by
  obtain ⟨rx, hrx, hrxc, _, _, hrxd, hrxa, hrxn, hrxs⟩ := mem_get_missing hx
  obtain ⟨ry, hry, hryc, _, _, hryd, hrya, hryn, hrys⟩ := mem_get_missing hy
  have hreq : rx = ry := by
    apply eq_of_keyFn_eq hdb hrx hry
    have hdteq : rx.document_type = ry.document_type := by
      rw [← hrxd, ← hryd, hxy]
    simp [keyFn, hrxc, hryc, hdteq]
  rcases x with ⟨xd, xn, xs, xa⟩
  rcases y with ⟨yd, yn, ys, ya⟩
  simp only at hxy hrxd hrxa hrxn hrxs hryd hrya hryn hrys
  subst hreq
  simp [hxy, hrxa, hrya, hrxn, hryn, hrxs, hrys]

theorem missing_nodup {db : DB} {caseId : Nat} (hdb : keysNodup db) :
    (get_missing_documents db caseId).Nodup := by
  have hdbn : db.Nodup := List.Nodup.of_map keyFn hdb
  unfold get_missing_documents
  apply List.Nodup.map_on
  · intro x hx y hy hxy
    obtain ⟨hxdb, hxc⟩ := List.mem_filter.mp hx
    obtain ⟨hydb, hyc⟩ := List.mem_filter.mp hy
    simp only [Bool.and_eq_true, beq_iff_eq] at hxc hyc
    apply eq_of_keyFn_eq hdb hxdb hydb
    have hdt : x.document_type = y.document_type := by
      have := congrArg MissingDoc.document_type hxy
      simpa using this
    simp [keyFn, hxc.1.1, hyc.1.1, hdt]
  · exact (List.filter_sublist db).nodup hdbn

theorem missing_dts_nodup {db : DB} {caseId : Nat} (hdb : keysNodup db) :
    (((get_missing_documents db caseId).filter (fun m => m.auto_available)).map
      (fun m => m.document_type)).Nodup := by
  have hsub : List.Sublist
      ((get_missing_documents db caseId).filter (fun m => m.auto_available))
      (get_missing_documents db caseId) :=
    List.filter_sublist _
  apply List.Nodup.map_on
  · intro x hx y hy hxy
    exact missing_auto_eq_of_dt_eq hdb (List.mem_of_mem_filter hx)
      (List.mem_of_mem_filter hy) hxy
  · exact hsub.nodup (missing_nodup hdb)

theorem matchesKey_of_keyFn_eq {c : Nat} {dtq : DocumentType}
    {a b : RequiredDocument} (h : keyFn a = keyFn b) :
    matchesKey c dtq a = matchesKey c dtq b := by
  unfold keyFn at h
  have h1 : a.case_id = b.case_id := congrArg Prod.fst h
  have h2 : a.document_type = b.document_type := congrArg Prod.snd h
  unfold matchesKey
  rw [h1, h2]

theorem multiUpdate_of_no_match (api : DocumentType → Except String ApiResponse)
    (save : DocumentType → Except String Nat) (caseId : Nat)
    (dts : List DocumentType) (r : RequiredDocument)
    (h : ∀ dt ∈ dts, matchesKey caseId dt r = false) :
    multiUpdate api save caseId dts r = r := by
  induction dts with
  | nil => rfl
  | cons dt rest ih =>
    show multiUpdate api save caseId rest (itemUpdate api save caseId dt r) = r
    rw [itemUpdate_of_no_match api save caseId dt r (h dt (List.mem_cons_self dt rest))]
    exact ih (fun dt' h' => h dt' (List.mem_cons_of_mem dt h'))

theorem multiUpdate_status (api : DocumentType → Except String ApiResponse)
    (save : DocumentType → Except String Nat) (caseId : Nat)
    (dts : List DocumentType) (r : RequiredDocument)
    (hmk : r.case_id = caseId) (hnd : dts.Nodup)
    (hmem : r.document_type ∈ dts) :
    (multiUpdate api save caseId dts r).status =
      (if issueOk api save r.document_type then DocumentStatus.completed
       else DocumentStatus.not_started) := by
  induction dts with
  | nil => simp at hmem
  | cons dt rest ih =>
    show (multiUpdate api save caseId rest (itemUpdate api save caseId dt r)).status = _
    by_cases hdt : dt = r.document_type
    · subst hdt
      have hm : matchesKey caseId r.document_type r = true :=
        matchesKey_eq_true_iff.mpr ⟨hmk, rfl⟩
      have hst := (itemUpdate_of_match api save caseId r.document_type r hm).1
      have hnotin : r.document_type ∉ rest := (List.nodup_cons.mp hnd).1
      have hfix : multiUpdate api save caseId rest
          (itemUpdate api save caseId r.document_type r) =
            itemUpdate api save caseId r.document_type r := by
        apply multiUpdate_of_no_match
        intro dt' hdt'
        rw [matchesKey_of_keyFn_eq
          (itemUpdate_keyFn api save caseId r.document_type r)]
        cases hx : matchesKey caseId dt' r with
        | false => rfl
        | true =>
          obtain ⟨_, hdteq⟩ := matchesKey_eq_true_iff.mp hx
          exact absurd (hdteq ▸ hdt') hnotin
      rw [hfix, hst]
    · have hm : matchesKey caseId dt r = false := by
        cases hx : matchesKey caseId dt r with
        | false => rfl
        | true =>
          obtain ⟨_, h2⟩ := matchesKey_eq_true_iff.mp hx
          exact absurd h2.symm hdt
      rw [itemUpdate_of_no_match api save caseId dt r hm]
      have hmem' : r.document_type ∈ rest := by
        rcases List.mem_cons.mp hmem with h | h
        · exact absurd h.symm hdt
        · exact h
      exact ih (List.nodup_cons.mp hnd).2 hmem'

theorem batch_auto_available (db : DB) (caseId : Nat) :
    ∀ m ∈ (get_missing_documents db caseId).filter (fun m => m.auto_available),
      AUTO_AVAILABLE_DOCUMENTS m.document_type = true := by
  intro m hm
  obtain ⟨hmm, hma⟩ := List.mem_filter.mp hm
  obtain ⟨r, _, _, _, _, hdt, hauto, _, _⟩ := mem_get_missing hmm
  rw [hdt, ← hauto]
  exact hma

theorem row_dt_mem_processed (db : DB) (caseId : Nat) (r : RequiredDocument)
    (hrdb : r ∈ db) (hc : r.case_id = caseId) (hreq : r.is_required = true)
    (hs : r.status ≠ DocumentStatus.completed)
    (hauto : AUTO_AVAILABLE_DOCUMENTS r.document_type = true) :
    r.document_type ∈ ((get_missing_documents db caseId).filter
      (fun m => m.auto_available)).map (fun m => m.document_type) := by
  apply List.mem_map.mpr
  refine ⟨{ document_type := r.document_type
            document_name := DOCUMENT_NAMES r.document_type
            status := r.status
            auto_available := AUTO_AVAILABLE_DOCUMENTS r.document_type }, ?_, rfl⟩
  apply List.mem_filter.mpr
  constructor
  · unfold get_missing_documents
    exact List.mem_map.mpr
      ⟨r, List.mem_filter.mpr ⟨hrdb, by simp [hc, hreq, hs]⟩, rfl⟩
  · simpa using hauto

theorem filter_length_split {α : Type} (l : List α) (p : α → Bool) :
    (l.filter p).length + (l.filter (fun a => !p a)).length = l.length := by
  induction l with
  | nil => rfl
  | cons a t ih =>
    cases ha : p a <;> simp [List.filter_cons, ha, ← ih] <;> omega

/-! ### Claims about re-entry and batch issuance -/

/-- Counterexample for claim C5 as stated: `auto_issue_document` is an
automatic-issuance entry point, it performs no status check, and invoking
it on a row whose status is `COMPLETED` re-enters the row — here a failing
gateway call drives the `COMPLETED` row to `NOT_STARTED`. -/
theorem c5_counterexample :
    ((auto_issue_document (fun _ => .error "down") (fun _ => .error "io")
        [{ case_id := 1, document_type := DocumentType.health_insurance_cert,
           is_required := true, status := DocumentStatus.completed,
           document_id := some 5 }] 1 DocumentType.health_insurance_cert).2).map
      (fun r => r.status) = [DocumentStatus.not_started] ∧
    ((batch_auto_issue (fun _ => .error "down") (fun _ => .error "io")
        [{ case_id := 1, document_type := DocumentType.health_insurance_cert,
           is_required := true, status := DocumentStatus.not_required,
           document_id := none }] 1).2).map
      (fun r => r.status) = [DocumentStatus.not_started] ∧
    DocumentStatus.not_started ≠ DocumentStatus.completed ∧
    DocumentStatus.not_started ≠ DocumentStatus.not_required := by
  refine ⟨rfl, rfl, ?_, ?_⟩ <;> intro h <;> cases h

/-- Claim C5 (amended): only `batch_auto_issue` refuses to re-enter
`COMPLETED` rows — such a row of the batch's case is left unchanged and its
document type is issued for no batch item; the protection does not extend
to `NOT_REQUIRED` rows (they are re-issued whenever `is_required` is set)
nor to direct `auto_issue_document` calls, which check no status. -/
theorem c5_amended_batch_completed_frame
    (api : DocumentType → Except String ApiResponse)
    (save : DocumentType → Except String Nat) (db : DB) (caseId : Nat)
    (hdb : keysNodup db) (i : Nat) (r : RequiredDocument)
    (hir : db[i]? = some r) (hc : r.case_id = caseId)
    (hs : r.status = DocumentStatus.completed) :
    ((batch_auto_issue api save db caseId).2)[i]? = some r ∧
    (∀ e ∈ (batch_auto_issue api save db caseId).1.success,
      e.document_type ≠ r.document_type) ∧
    (∀ e ∈ (batch_auto_issue api save db caseId).1.failed,
      e.document_type ≠ r.document_type) := by
  have hrdb : r ∈ db := List.getElem?_mem hir
  have hL := batch_auto_available db caseId
  have hnotin : ∀ dt ∈ ((get_missing_documents db caseId).filter
      (fun m => m.auto_available)).map (fun m => m.document_type),
      matchesKey caseId dt r = false := by
    intro dt hdt
    obtain ⟨m, hmL, hmdt⟩ := List.mem_map.mp hdt
    obtain ⟨hmm, _⟩ := List.mem_filter.mp hmL
    obtain ⟨r2, hr2db, hr2c, hr2s, _, hdt2, _, _, _⟩ := mem_get_missing hmm
    cases hx : matchesKey caseId dt r with
    | false => rfl
    | true =>
      exfalso
      obtain ⟨_, hrdt⟩ := matchesKey_eq_true_iff.mp hx
      have hkey : keyFn r = keyFn r2 := by
        simp only [keyFn, hc, hr2c, hrdt]
        rw [← hmdt, hdt2]
      have hr12 := eq_of_keyFn_eq hdb hrdb hr2db hkey
      rw [hr12] at hs
      exact hr2s hs
  have hsnd : (batch_auto_issue api save db caseId).2 =
      db.map (multiUpdate api save caseId
        (((get_missing_documents db caseId).filter
          (fun m => m.auto_available)).map (fun m => m.document_type))) :=
    batchLoop_snd api save caseId db _ hL hdb
  obtain ⟨hfs, hff⟩ := batchLoop_fst api save caseId db
    ((get_missing_documents db caseId).filter (fun m => m.auto_available)) hL
  refine ⟨?_, ?_, ?_⟩
  · rw [hsnd, List.getElem?_map, hir]
    show some _ = some r
    rw [multiUpdate_of_no_match api save caseId _ r hnotin]
  · intro e he heq
    have he2 : e ∈ (batchLoop api save caseId db
        ((get_missing_documents db caseId).filter
          (fun m => m.auto_available))).1.success := he
    rw [hfs] at he2
    obtain ⟨m, hmf, hme⟩ := List.mem_map.mp he2
    have hdtm : r.document_type ∈ ((get_missing_documents db caseId).filter
        (fun m => m.auto_available)).map (fun m => m.document_type) := by
      apply List.mem_map.mpr
      refine ⟨m, List.mem_of_mem_filter hmf, ?_⟩
      rw [← heq, ← hme]
    have := hnotin r.document_type hdtm
    rw [matchesKey_eq_true_iff.mpr ⟨hc, rfl⟩] at this
    cases this
  · intro e he heq
    have he2 : e ∈ (batchLoop api save caseId db
        ((get_missing_documents db caseId).filter
          (fun m => m.auto_available))).1.failed := he
    rw [hff] at he2
    obtain ⟨m, hmf, hme⟩ := List.mem_map.mp he2
    have hdtm : r.document_type ∈ ((get_missing_documents db caseId).filter
        (fun m => m.auto_available)).map (fun m => m.document_type) := by
      apply List.mem_map.mpr
      refine ⟨m, List.mem_of_mem_filter hmf, ?_⟩
      rw [← heq, ← hme]
    have := hnotin r.document_type hdtm
    rw [matchesKey_eq_true_iff.mpr ⟨hc, rfl⟩] at this
    cases this

/-- Witness for the amended C5 at a concrete state: a `COMPLETED` row
survives a batch run untouched even though its type is auto-issuable. -/
theorem c5_amended_batch_completed_frame_witness :
    keysNodup [{ case_id := 1,
                 document_type := DocumentType.health_insurance_cert,
                 is_required := true, status := DocumentStatus.completed,
                 document_id := some 5 }] ∧
    ((batch_auto_issue (fun _ => .error "down") (fun _ => .error "io")
        [{ case_id := 1, document_type := DocumentType.health_insurance_cert,
           is_required := true, status := DocumentStatus.completed,
           document_id := some 5 }] 1).2)[0]? =
      some { case_id := 1, document_type := DocumentType.health_insurance_cert,
             is_required := true, status := DocumentStatus.completed,
             document_id := some 5 } :=
  ⟨by decide,
    (c5_amended_batch_completed_frame (fun _ => .error "down")
      (fun _ => .error "io")
      [{ case_id := 1, document_type := DocumentType.health_insurance_cert,
         is_required := true, status := DocumentStatus.completed,
         document_id := some 5 }] 1 (by decide) 0
      { case_id := 1, document_type := DocumentType.health_insurance_cert,
        is_required := true, status := DocumentStatus.completed,
        document_id := some 5 } (by decide) (by decide) (by decide)).1⟩

/-- Claim C3: in a batch over the auto-issuable, not-`COMPLETED` required
documents of a case in which exactly one per-document issuance fails,
`batch_auto_issue` returns one failed entry and `N−1` succeeded entries
(each carrying a document id), one entry per item (no abort), and the final
status of each processed row is `COMPLETED` when its issuance succeeded and
`NOT_STARTED` when it failed. -/
theorem c3_batch_partial_failure
    (api : DocumentType → Except String ApiResponse)
    (save : DocumentType → Except String Nat) (db : DB) (caseId : Nat)
    (hdb : keysNodup db)
    (hone : (((get_missing_documents db caseId).filter
        (fun m => m.auto_available)).filter
        (fun m => !issueOk api save m.document_type)).length = 1) :
    (batch_auto_issue api save db caseId).1.failed.length = 1 ∧
    (batch_auto_issue api save db caseId).1.success.length + 1 =
      ((get_missing_documents db caseId).filter
        (fun m => m.auto_available)).length ∧
    (∀ e ∈ (batch_auto_issue api save db caseId).1.success,
      (e.document_id).isSome = true) ∧
    (∀ (i : Nat) (r : RequiredDocument), db[i]? = some r →
      r.case_id = caseId → r.is_required = true →
      r.status ≠ DocumentStatus.completed →
      AUTO_AVAILABLE_DOCUMENTS r.document_type = true →
      ∃ r', ((batch_auto_issue api save db caseId).2)[i]? = some r' ∧
        r'.status = (if issueOk api save r.document_type
          then DocumentStatus.completed else DocumentStatus.not_started)) := by
  have hL := batch_auto_available db caseId
  obtain ⟨hfs, hff⟩ := batchLoop_fst api save caseId db
    ((get_missing_documents db caseId).filter (fun m => m.auto_available)) hL
  have hsnd : (batch_auto_issue api save db caseId).2 =
      db.map (multiUpdate api save caseId
        (((get_missing_documents db caseId).filter
          (fun m => m.auto_available)).map (fun m => m.document_type))) :=
    batchLoop_snd api save caseId db _ hL hdb
  have hflen := filter_length_split
    ((get_missing_documents db caseId).filter (fun m => m.auto_available))
    (fun m => issueOk api save m.document_type)
  refine ⟨?_, ?_, ?_, ?_⟩
  · show (batchLoop api save caseId db _).1.failed.length = 1
    rw [hff, List.length_map]
    exact hone
  · show (batchLoop api save caseId db _).1.success.length + 1 = _
    rw [hfs, List.length_map]
    omega
  · intro e he
    have he2 : e ∈ (batchLoop api save caseId db
        ((get_missing_documents db caseId).filter
          (fun m => m.auto_available))).1.success := he
    rw [hfs] at he2
    obtain ⟨m, hmf, hme⟩ := List.mem_map.mp he2
    obtain ⟨_, hmok⟩ := List.mem_filter.mp hmf
    obtain ⟨j, _, hdoc, _⟩ := issueResult_of_ok api save m.document_type hmok
    rw [← hme]
    show ((issueResult api save m.document_type).document_id).isSome = true
    rw [hdoc]
    rfl
  · intro i r hir hc hreq hs hauto
    have hrdb : r ∈ db := List.getElem?_mem hir
    have hmem := row_dt_mem_processed db caseId r hrdb hc hreq hs hauto
    refine ⟨multiUpdate api save caseId
      (((get_missing_documents db caseId).filter
        (fun m => m.auto_available)).map (fun m => m.document_type)) r, ?_, ?_⟩
    · rw [hsnd, List.getElem?_map, hir]
      rfl
    · exact multiUpdate_status api save caseId _ r hc
        (missing_dts_nodup hdb) hmem

/-- Witness for C3: a two-row case where the health-insurance certificate
issues successfully and the pension certificate fails (its dispatch branch
raises), giving exactly one failure, one success, and the expected final
statuses. -/
theorem c3_batch_partial_failure_witness :
    keysNodup
      [{ case_id := 1, document_type := DocumentType.health_insurance_cert,
         is_required := true, status := DocumentStatus.not_started,
         document_id := none },
       { case_id := 1, document_type := DocumentType.pension_cert,
         is_required := true, status := DocumentStatus.not_started,
         document_id := none }] ∧
    (((get_missing_documents
        [{ case_id := 1, document_type := DocumentType.health_insurance_cert,
           is_required := true, status := DocumentStatus.not_started,
           document_id := none },
         { case_id := 1, document_type := DocumentType.pension_cert,
           is_required := true, status := DocumentStatus.not_started,
           document_id := none }] 1).filter (fun m => m.auto_available)).filter
        (fun m => !issueOk
          (fun _ => .ok { code := some "0000", success := false,
                          message := none, data := none })
          (fun _ => .ok 7) m.document_type)).length = 1 ∧
    (batch_auto_issue
      (fun _ => .ok { code := some "0000", success := false, message := none,
                      data := none })
      (fun _ => .ok 7)
      [{ case_id := 1, document_type := DocumentType.health_insurance_cert,
         is_required := true, status := DocumentStatus.not_started,
         document_id := none },
       { case_id := 1, document_type := DocumentType.pension_cert,
         is_required := true, status := DocumentStatus.not_started,
         document_id := none }] 1).1.failed.length = 1 :=
  ⟨by decide, by decide,
    (c3_batch_partial_failure
      (fun _ => .ok { code := some "0000", success := false, message := none,
                      data := none })
      (fun _ => .ok 7)
      [{ case_id := 1, document_type := DocumentType.health_insurance_cert,
         is_required := true, status := DocumentStatus.not_started,
         document_id := none },
       { case_id := 1, document_type := DocumentType.pension_cert,
         is_required := true, status := DocumentStatus.not_started,
         document_id := none }] 1 (by decide) (by decide)).1⟩

/-! ### UTF-8 byte encoding

Python's `str.encode('utf-8')` and `bytes.decode('utf-8')` as explicit byte
lists: the encoder maps each code point to its standard 1–4 byte sequence,
the decoder is its inverse and rejects malformed sequences and invalid code
points. -/

/-- Standard UTF-8 encoding of one code point. -/
def utf8EncodeChar (n : Nat) : List Nat :=
  if n < 0x80 then [n]
  else if n < 0x800 then [0xC0 + n / 0x40, 0x80 + n % 0x40]
  else if n < 0x10000 then
    [0xE0 + n / 0x1000, 0x80 + n / 0x40 % 0x40, 0x80 + n % 0x40]
  else
    [0xF0 + n / 0x40000, 0x80 + n / 0x1000 % 0x40, 0x80 + n / 0x40 % 0x40,
     0x80 + n % 0x40]

/-- `s.encode('utf-8')` as a byte list. -/
def utf8Encode (s : String) : List Nat :=
  (s.data.map (fun c => utf8EncodeChar c.toNat)).flatten

/-- Decode one UTF-8 sequence from the head of the byte list: the code
point and the remaining bytes, `none` on a malformed head. -/
def utf8Step (l : List Nat) : Option (Nat × List Nat) :=
  match l with
  | [] => none
  | b0 :: rest =>
    if b0 < 0x80 then some (b0, rest)
    else if b0 < 0xC0 then none
    else if b0 < 0xE0 then
      match rest with
      | b1 :: rest2 =>
        if 0x80 ≤ b1 ∧ b1 < 0xC0 then
          some ((b0 - 0xC0) * 0x40 + (b1 - 0x80), rest2)
        else none
      | [] => none
    else if b0 < 0xF0 then
      match rest with
      | b1 :: b2 :: rest2 =>
        if (0x80 ≤ b1 ∧ b1 < 0xC0) ∧ (0x80 ≤ b2 ∧ b2 < 0xC0) then
          some ((b0 - 0xE0) * 0x1000 + (b1 - 0x80) * 0x40 + (b2 - 0x80), rest2)
        else none
      | _ => none
    else if b0 < 0xF8 then
      match rest with
      | b1 :: b2 :: b3 :: rest2 =>
        if (0x80 ≤ b1 ∧ b1 < 0xC0) ∧ (0x80 ≤ b2 ∧ b2 < 0xC0) ∧
            (0x80 ≤ b3 ∧ b3 < 0xC0) then
          some ((b0 - 0xF0) * 0x40000 + (b1 - 0x80) * 0x1000 +
            (b2 - 0x80) * 0x40 + (b3 - 0x80), rest2)
        else none
      | _ => none
    else none

theorem utf8Step_length {l : List Nat} {n : Nat} {rest : List Nat}
    (h : utf8Step l = some (n, rest)) : rest.length < l.length := by
  match l with
  | [] => exact absurd h (by simp [utf8Step])
  | b0 :: t =>
    unfold utf8Step at h
    dsimp only at h
    by_cases h1 : b0 < 0x80
    · rw [if_pos h1] at h
      simp only [Option.some.injEq, Prod.mk.injEq] at h
      rw [← h.2]
      simp
    · rw [if_neg h1] at h
      by_cases h2 : b0 < 0xC0
      · rw [if_pos h2] at h
        cases h
      · rw [if_neg h2] at h
        by_cases h3 : b0 < 0xE0
        · rw [if_pos h3] at h
          match t with
          | [] => dsimp only at h; cases h
          | b1 :: t2 =>
            dsimp only at h
            by_cases hc : 0x80 ≤ b1 ∧ b1 < 0xC0
            · rw [if_pos hc] at h
              simp only [Option.some.injEq, Prod.mk.injEq] at h
              rw [← h.2]
              simp
              omega
            · rw [if_neg hc] at h
              cases h
        · rw [if_neg h3] at h
          by_cases h4 : b0 < 0xF0
          · rw [if_pos h4] at h
            match t with
            | [] => dsimp only at h; cases h
            | [b1] => dsimp only at h; cases h
            | b1 :: b2 :: t2 =>
              dsimp only at h
              by_cases hc : (0x80 ≤ b1 ∧ b1 < 0xC0) ∧ (0x80 ≤ b2 ∧ b2 < 0xC0)
              · rw [if_pos hc] at h
                simp only [Option.some.injEq, Prod.mk.injEq] at h
                rw [← h.2]
                simp
                omega
              · rw [if_neg hc] at h
                cases h
          · rw [if_neg h4] at h
            by_cases h5 : b0 < 0xF8
            · rw [if_pos h5] at h
              match t with
              | [] => dsimp only at h; cases h
              | [b1] => dsimp only at h; cases h
              | [b1, b2] => dsimp only at h; cases h
              | b1 :: b2 :: b3 :: t2 =>
                dsimp only at h
                by_cases hc : (0x80 ≤ b1 ∧ b1 < 0xC0) ∧
                    (0x80 ≤ b2 ∧ b2 < 0xC0) ∧ (0x80 ≤ b3 ∧ b3 < 0xC0)
                · rw [if_pos hc] at h
                  simp only [Option.some.injEq, Prod.mk.injEq] at h
                  rw [← h.2]
                  simp
                  omega
                · rw [if_neg hc] at h
                  cases h
            · rw [if_neg h5] at h
              cases h

/-- UTF-8 decoding to code points; `none` on any malformed sequence. -/
def utf8DecodeAux (l : List Nat) : Option (List Nat) :=
  match h : utf8Step l with
  | some (n, rest) => (utf8DecodeAux rest).map (fun cps => n :: cps)
  | none =>
    match l with
    | [] => some []
    | _ => none
termination_by l.length
decreasing_by exact utf8Step_length h

/-- `bytes.decode('utf-8')`: decode to code points, require each to be a
valid unicode scalar value, and rebuild the string. -/
def utf8Decode (b : List Nat) : Option String :=
  (utf8DecodeAux b).bind fun cps =>
    if cps.all (fun n =>
        decide (n < 0xD800) || (decide (0xDFFF < n) && decide (n < 0x110000)))
    then some (String.mk (cps.map Char.ofNat))
    else none

theorem charOfNat_toNat (c : Char) : Char.ofNat c.toNat = c := by
  have h : c.toNat.isValidChar := c.valid
  unfold Char.ofNat
  rw [dif_pos h]
  rcases c with ⟨⟨⟨n, hn⟩⟩, hv⟩
  rfl

set_option maxRecDepth 4096 in
theorem utf8Step_encodeChar (c : Char) (rest : List Nat) :
    utf8Step (utf8EncodeChar c.toNat ++ rest) = some (c.toNat, rest) := by
  have hv : c.toNat.isValidChar := c.valid
  have hlt : c.toNat < 0x110000 := by
    rcases hv with h | ⟨_, h⟩
    · omega
    · exact h
  unfold utf8EncodeChar
  by_cases h1 : c.toNat < 0x80
  · rw [if_pos h1]
    show utf8Step (c.toNat :: rest) = _
    unfold utf8Step
    dsimp only
    rw [if_pos h1]
  · rw [if_neg h1]
    by_cases h2 : c.toNat < 0x800
    · rw [if_pos h2]
      show utf8Step (_ :: _ :: rest) = _
      unfold utf8Step
      dsimp only
      rw [if_neg (by omega), if_neg (by omega), if_pos (by omega)]
      rw [if_pos (by constructor <;> omega)]
      congr 1
      refine Prod.ext ?_ rfl
      show (0xC0 + c.toNat / 0x40 - 0xC0) * 0x40 +
          (0x80 + c.toNat % 0x40 - 0x80) = c.toNat
      omega
    · rw [if_neg h2]
      by_cases h3 : c.toNat < 0x10000
      · rw [if_pos h3]
        show utf8Step (_ :: _ :: _ :: rest) = _
        unfold utf8Step
        dsimp only
        rw [if_neg (by omega), if_neg (by omega), if_neg (by omega),
          if_pos (by omega)]
        rw [if_pos (by refine ⟨⟨?_, ?_⟩, ?_, ?_⟩ <;> omega)]
        congr 1
        refine Prod.ext ?_ rfl
        show (0xE0 + c.toNat / 0x1000 - 0xE0) * 0x1000 +
            (0x80 + c.toNat / 0x40 % 0x40 - 0x80) * 0x40 +
            (0x80 + c.toNat % 0x40 - 0x80) = c.toNat
        omega
      · rw [if_neg h3]
        show utf8Step (_ :: _ :: _ :: _ :: rest) = _
        unfold utf8Step
        dsimp only
        rw [if_neg (by omega), if_neg (by omega), if_neg (by omega),
          if_neg (by omega), if_pos (by omega)]
        rw [if_pos (by refine ⟨⟨?_, ?_⟩, ⟨?_, ?_⟩, ?_, ?_⟩ <;> omega)]
        congr 1
        refine Prod.ext ?_ rfl
        show (0xF0 + c.toNat / 0x40000 - 0xF0) * 0x40000 +
            (0x80 + c.toNat / 0x1000 % 0x40 - 0x80) * 0x1000 +
            (0x80 + c.toNat / 0x40 % 0x40 - 0x80) * 0x40 +
            (0x80 + c.toNat % 0x40 - 0x80) = c.toNat
        omega

theorem utf8DecodeAux_encodeChar (c : Char) (rest : List Nat) :
    utf8DecodeAux (utf8EncodeChar c.toNat ++ rest) =
      (utf8DecodeAux rest).map (fun l => c.toNat :: l) := by
  conv_lhs => rw [utf8DecodeAux]
  split
  · rename_i n rest2 heq
    rw [utf8Step_encodeChar] at heq
    simp only [Option.some.injEq, Prod.mk.injEq] at heq
    rw [heq.1, heq.2]
  · rename_i heq
    rw [utf8Step_encodeChar] at heq
    cases heq

theorem utf8DecodeAux_encode (s : List Char) :
    utf8DecodeAux ((s.map (fun c => utf8EncodeChar c.toNat)).flatten) =
      some (s.map Char.toNat) := by
  induction s with
  | nil =>
    rw [utf8DecodeAux]
    rfl
  | cons c cs ih =>
    simp only [List.map_cons, List.flatten_cons]
    rw [utf8DecodeAux_encodeChar c _, ih]
    rfl

theorem utf8Decode_encode (s : String) : utf8Decode (utf8Encode s) = some s := by
  unfold utf8Decode utf8Encode
  rw [utf8DecodeAux_encode s.data]
  show (if _ then _ else _) = _
  rw [if_pos ?hval]
  case hval =>
    apply List.all_eq_true.mpr
    intro n hn
    obtain ⟨c, _, hc⟩ := List.mem_map.mp hn
    subst hc
    rcases c.valid with h | ⟨h1, h2⟩
    · have hx : c.toNat < 0xD800 := h
      simp [hx]
    · have hx1 : 0xDFFF < c.toNat := h1
      have hx2 : c.toNat < 0x110000 := h2
      simp [hx1, hx2]
  rw [List.map_map]
  have hmap : s.data.map (Char.ofNat ∘ Char.toNat) = s.data := by
    have h2 : s.data.map (Char.ofNat ∘ Char.toNat) = s.data.map id :=
      List.map_congr_left (fun c _ => charOfNat_toNat c)
    simpa using h2
  rw [hmap]

/-! ### The sensitive-data vault (`core/security.py`)

`encrypt_sensitive_data` / `decrypt_sensitive_data` wrap the `cryptography`
package's `Fernet` instance built from the key that `get_encryption_key`
derives once (SHA-256 of the configured master secret, base64-encoded).
`Fernet` is an external dependency, embedded as an abstract model of its
documented behaviour for the fixed derived key: encryption consumes
randomness (IV and timestamp, the `n` parameter) and decryption is an
authenticated inverse — it recovers exactly the encrypted message and
accepts nothing but outputs of `encrypt` (`auth`).  The repository code
adds the UTF-8 encode/decode shell, which is embedded concretely. -/

structure FernetModel where
  encrypt : Nat → List Nat → List Nat
  decrypt : List Nat → Option (List Nat)
  decrypt_encrypt : ∀ n m, decrypt (encrypt n m) = some m
  auth : ∀ c m, decrypt c = some m → ∃ n, c = encrypt n m

/-- `encrypt_sensitive_data`: `fernet.encrypt(data.encode()).decode()`.
The Fernet token is ASCII, so its final `.decode()` (and the matching
`.encode()` in decryption) is a bijection between the token string and the
token bytes; the embedding stays at the byte level. -/
def encrypt_sensitive_data (F : FernetModel) (n : Nat) (data : String) :
    List Nat :=
  F.encrypt n (utf8Encode data)

/-- `decrypt_sensitive_data`: `fernet.decrypt(encrypted_data.encode()).decode()`.
A raised `InvalidToken` (or a decode failure) is `none`. -/
def decrypt_sensitive_data (F : FernetModel) (blob : List Nat) :
    Option String :=
  (F.decrypt blob).bind utf8Decode

/-- Claim C2: for every string `s`,
`decrypt_sensitive_data (encrypt_sensitive_data s) = s`, and decrypting any
blob that is not an authentic ciphertext produced under the derived key
fails hard (`none`), never yielding garbage plaintext. -/
theorem c2_vault_roundtrip_fail_closed (F : FernetModel) :
    (∀ (n : Nat) (s : String),
      decrypt_sensitive_data F (encrypt_sensitive_data F n s) = some s) ∧
    (∀ blob : List Nat, (∀ (n : Nat) (m : List Nat), blob ≠ F.encrypt n m) →
      decrypt_sensitive_data F blob = none) := by
  constructor
  · intro n s
    unfold decrypt_sensitive_data encrypt_sensitive_data
    rw [F.decrypt_encrypt]
    show utf8Decode (utf8Encode s) = some s
    exact utf8Decode_encode s
  · intro blob hblob
    unfold decrypt_sensitive_data
    cases hd : F.decrypt blob with
    | none => rfl
    | some m =>
      obtain ⟨n, hc⟩ := F.auth blob m hd
      exact absurd hc (hblob n m)

/-- A concrete model satisfying the Fernet contract (nonce prepended to the
message), used to instantiate the claim. -/
def taggedFernet : FernetModel where
  encrypt := fun n m => n :: m
  decrypt := fun c =>
    match c with
    | [] => none
    | _ :: m => some m
  decrypt_encrypt := fun _ _ => rfl
  auth := fun c m h => by
    match c with
    | [] => cases h
    | a :: t =>
      refine ⟨a, ?_⟩
      simp only [Option.some.injEq] at h
      rw [h]

/-- Witness for C2: round trip of a concrete identity-number string, and
hard failure on a concrete inauthentic blob. -/
theorem c2_vault_roundtrip_fail_closed_witness :
    decrypt_sensitive_data taggedFernet
      (encrypt_sensitive_data taggedFernet 0 "901231-1234567") =
        some "901231-1234567" ∧
    decrypt_sensitive_data taggedFernet [] = none :=
  ⟨(c2_vault_roundtrip_fail_closed taggedFernet).1 0 "901231-1234567",
    (c2_vault_roundtrip_fail_closed taggedFernet).2 []
      (fun n m h => by cases h)⟩

/-! ### Transport encryption of the issuance gateway (`hyphen_service.py`)

`HyphenService.encrypt_data` builds AES-128-CBC with PKCS#7 padding from
the `cryptography` package's primitives.  The AES block permutation itself
is the external primitive, embedded as the abstract parameter `aes` (key →
block → ciphertext block); the key/IV derivation, padding, CBC chaining and
base64 encoding are repository-visible structure and are embedded
concretely. -/

/-- `HyphenService._pad` with the default block size 16 (PKCS#7). -/
def hyphen_pad (data : List Nat) : List Nat :=
  let padding_len := 16 - data.length % 16
  data ++ List.replicate padding_len padding_len

/-- `HyphenService._get_iv`: the configured client identifier (`user_id`)
UTF-8 encoded, zero-padded when shorter than 16 bytes, then truncated to 16
bytes. -/
def get_iv (user_id : String) : List Nat :=
  let iv := utf8Encode user_id
  let iv2 := if iv.length < 16 then iv ++ List.replicate (16 - iv.length) 0
    else iv
  iv2.take 16

/-- Bytewise xor, as CBC chains blocks. -/
def xorBytes (a b : List Nat) : List Nat :=
  List.zipWith (fun x y => x ^^^ y) a b

/-- Split a byte string into 16-byte blocks. -/
def toBlocks : List Nat → List (List Nat)
  | [] => []
  | b :: t => ((b :: t).take 16) :: toBlocks ((b :: t).drop 16)
termination_by l => l.length
decreasing_by
  simp [List.length_drop]
  omega

/-- CBC mode encryption: each block is xored with the previous ciphertext
block (initially the IV) before the block cipher is applied. -/
def cbcEncrypt (enc : List Nat → List Nat) : List Nat → List (List Nat) →
    List (List Nat)
  | _, [] => []
  | prev, b :: bs =>
    let c := enc (xorBytes prev b)
    c :: cbcEncrypt enc c bs

/-- The standard base64 alphabet character for a 6-bit value. -/
def b64Char (n : Nat) : Char :=
  ("ABCDEFGHIJKLMNOPQRSTUVWXYZabcdefghijklmnopqrstuvwxyz0123456789+/").data.getD n
    (Char.ofNat 65)

/-- Standard base64 encoding (`base64.b64encode`). -/
def base64Encode : List Nat → List Char
  | a :: b :: c :: rest =>
    b64Char (a / 4) :: b64Char (a % 4 * 16 + b / 16) ::
      b64Char (b % 16 * 4 + c / 64) :: b64Char (c % 64) :: base64Encode rest
  | [a, b] =>
    [b64Char (a / 4), b64Char (a % 4 * 16 + b / 16), b64Char (b % 16 * 4),
     Char.ofNat 61]
  | [a] => [b64Char (a / 4), b64Char (a % 4 * 16), Char.ofNat 61, Char.ofNat 61]
  | [] => []

/-- `HyphenService.encrypt_data`: raises when no transport key is
configured (`if not self.ekey`); builds the AES-128 cipher from the first
16 bytes of the key (the library's `AES()` constructor raises on any
shorter key, modelled by the length guard); CBC-encrypts the PKCS#7-padded
UTF-8 plaintext with the derived IV and base64-encodes the ciphertext. -/
def encrypt_data (aes : List Nat → List Nat → List Nat)
    (ekey user_id data : String) : Except String String :=
  if ekey = "" then .error "HYPHEN_EKEY가 설정되지 않았습니다"
  else
    let key := (utf8Encode ekey).take 16
    if key.length = 16 then
      .ok (String.mk (base64Encode
        ((cbcEncrypt (aes key) (get_iv user_id)
          (toBlocks (hyphen_pad (utf8Encode data)))).flatten)))
    else .error "Invalid key size (128, 192, or 256) for AES"

/-- Spec-side definition (§6 Transport encryption): output is standard
base64 of AES-128-CBC with PKCS#7 padding, key = the first 16 bytes of the
configured transport key, IV = the registered client identifier encoded
and truncated to exactly 16 bytes or padded with zero bytes up to 16. -/
def specTransportEncrypt (aes : List Nat → List Nat → List Nat)
    (ekey user_id data : String) : String :=
  let key := (utf8Encode ekey).take 16
  let e := utf8Encode user_id
  let iv := if 16 ≤ e.length then e.take 16
    else e ++ List.replicate (16 - e.length) 0
  String.mk (base64Encode
    ((cbcEncrypt (aes key) iv (toBlocks (hyphen_pad (utf8Encode data)))).flatten))

/-- Claim C10: for every client identifier string — empty, short, or longer
than 16 bytes once UTF-8 encoded — `_get_iv` returns exactly 16 bytes, so
the AES-CBC cipher construction never fails on IV length. -/
theorem c10_get_iv_length (user_id : String) : (get_iv user_id).length = 16 := by
  unfold get_iv
  dsimp only
  split
  · rename_i h
    simp only [List.length_take, List.length_append, List.length_replicate]
    omega
  · rename_i h
    simp only [List.length_take]
    omega

/-- Claim C4: for any configured transport key of at least 16 UTF-8 bytes,
`encrypt_data` succeeds and equals the spec's formula — base64 of
AES-128-CBC over the PKCS#7-padded plaintext with key = first 16 bytes of
the transport key and IV = the client identifier padded/truncated to 16
bytes.  The embedding makes determinism explicit: the output is a function
of the key, the client identifier and the plaintext alone — no per-call
randomness enters. -/
theorem c4_encrypt_data_refines_spec (aes : List Nat → List Nat → List Nat)
    (ekey user_id data : String) (hk : 16 ≤ (utf8Encode ekey).length) :
    encrypt_data aes ekey user_id data =
      .ok (specTransportEncrypt aes ekey user_id data) := by
  have hne : ekey ≠ "" := by
    intro he
    rw [he] at hk
    revert hk
    decide
  have hkey : ((utf8Encode ekey).take 16).length = 16 := by
    rw [List.length_take]
    omega
  have hiv : get_iv user_id =
      (if 16 ≤ (utf8Encode user_id).length then (utf8Encode user_id).take 16
       else utf8Encode user_id ++
         List.replicate (16 - (utf8Encode user_id).length) 0) := by
    unfold get_iv
    dsimp only
    by_cases h : (utf8Encode user_id).length < 16
    · rw [if_pos h, if_neg (by omega)]
      apply List.take_of_length_le
      simp only [List.length_append, List.length_replicate]
      omega
    · rw [if_neg h, if_pos (by omega)]
  unfold encrypt_data specTransportEncrypt
  rw [if_neg hne]
  dsimp only
  rw [if_pos hkey, hiv]

/-- Witness for C4 at a fixed test vector: a 16-byte key, the 13-digit
client identifier, and a 13-digit identity string, with the block
permutation instantiated to the identity function. -/
theorem c4_encrypt_data_refines_spec_witness :
    16 ≤ (utf8Encode "0123456789abcdef").length ∧
    encrypt_data (fun _ b => b) "0123456789abcdef" "1234567890123"
        "9001011234567" =
      .ok (specTransportEncrypt (fun _ b => b) "0123456789abcdef"
        "1234567890123" "9001011234567") :=
  ⟨by decide,
    c4_encrypt_data_refines_spec (fun _ b => b) "0123456789abcdef"
      "1234567890123" "9001011234567" (by decide)⟩

/-! ### The certificate extractor (`certificate_service.py`)

`pkcs12.load_key_and_certificates` of the `cryptography` package is the
external parser; its outcome is the explicit `P12Parse` oracle: either it
raised (with the exception's message) or it returned the optional private
key and optional certificate.  The subsequent PEM serializations are
carried as strings inside the parse outcome; the repository's handling —
the missing-half check, the exception translation by message content, and
the PEM payload stripping — is embedded concretely. -/

/-- The certificate half of a parse result: validity window (as the
comparable instants `not_valid_before_utc` / `not_valid_after_utc`) and its
PEM serialization. -/
structure CertData where
  not_valid_before : Int
  not_valid_after : Int
  pem : String
deriving DecidableEq, Repr

/-- Outcome of `pkcs12.load_key_and_certificates`: raised with a message,
or returned the (possibly absent) private key's encrypted PEM and the
(possibly absent) certificate. -/
inductive P12Parse where
  | raise (msg : String)
  | parsed (keyPem : Option String) (cert : Option CertData)
deriving DecidableEq, Repr

/-- `pat` is a leading segment of the character list. -/
def leadsList : List Char → List Char → Bool
  | [], _ => true
  | _ :: _, [] => false
  | a :: as, b :: bs => a == b && leadsList as bs

/-- `pat` occurs as a contiguous segment of the character list. -/
def containsSub (pat : List Char) : List Char → Bool
  | [] => leadsList pat []
  | b :: t => leadsList pat (b :: t) || containsSub pat t

/-- Python's `in` on strings: the pattern occurs as a substring. -/
def strContains (s pat : String) : Bool := containsSub pat.data s.data

/-- `CertificateService._extract_base64_from_pem`: strip the PEM envelope
markers and line breaks, keeping the bare base64 payload. -/
def extract_base64_from_pem (pem : String) : String :=
  String.join ((pem.trim.splitOn "\n").filter
    (fun line => !(line.startsWith "-----")))

/-- `CertificateService.validate_certificate`: a permissive boolean probe.
Any parser exception is swallowed (`except Exception: return False`); a
missing certificate or key gives `False`; a current time outside
`[not_valid_before, not_valid_after]` gives `False`; otherwise `True`.
The embedding is a total function into `Bool` — the probe never raises. -/
def validate_certificate (p : P12Parse) (now : Int) : Bool :=
  match p with
  | .raise _ => false
  | .parsed keyPem cert? =>
    match cert?, keyPem with
    | some cert, some _ =>
      if now < cert.not_valid_before || cert.not_valid_after < now then false
      else true
    | _, _ => false

/-- The message of the `ValueError` raised for a wrong password. -/
def invalidPasswordMsg : String := "인증서 비밀번호가 올바르지 않습니다"

/-- The message of the `ValueError` raised when the bundle parses but the
certificate or the private key is absent: the inner `ValueError` is caught
by the method's own handler and re-wrapped with the generic prefix. -/
def missingKeyCertMsg : String := "인증서 처리 실패: 인증서 또는 개인키를 찾을 수 없습니다"

/-- `CertificateService.extract_certificate_info`.  The `except` handler
maps any exception whose text contains `"Invalid password"` or
`"mac verify failure"` to the wrong-password `ValueError` and every other
exception (including the in-`try` missing-key/cert `ValueError`) to
`"인증서 처리 실패: " + str(e)`. -/
def extract_certificate_info (p : P12Parse) : Except String (String × String) :=
  let handle := fun (msg : String) =>
    if strContains msg "Invalid password" ||
        strContains msg "mac verify failure" then
      (Except.error invalidPasswordMsg : Except String (String × String))
    else Except.error ("인증서 처리 실패: " ++ msg)
  match p with
  | .raise msg => handle msg
  | .parsed keyPem cert? =>
    match cert?, keyPem with
    | some cert, some kp =>
      .ok (extract_base64_from_pem cert.pem, extract_base64_from_pem kp)
    | _, _ => handle "인증서 또는 개인키를 찾을 수 없습니다"

/-- Claim C6: `validate_certificate` returns a boolean and never raises
(totality of the embedding): false for any parser exception — malformed
bytes or wrong password —, false when the key or the certificate is
missing, and false when the current time lies outside the certificate's
validity window even though the bundle parsed with the correct password. -/
theorem c6_validate_never_raises (now : Int) :
    (∀ msg, validate_certificate (.raise msg) now = false) ∧
    (∀ (keyPem : Option String) (cert : Option CertData),
      keyPem = none ∨ cert = none →
      validate_certificate (.parsed keyPem cert) now = false) ∧
    (∀ (kp : String) (cert : CertData),
      now < cert.not_valid_before ∨ cert.not_valid_after < now →
      validate_certificate (.parsed (some kp) (some cert)) now = false) := by
  refine ⟨fun _ => rfl, ?_, ?_⟩
  · intro keyPem cert h
    rcases h with h | h
    · subst h
      cases cert <;> rfl
    · subst h
      cases keyPem <;> rfl
  · intro kp cert h
    unfold validate_certificate
    dsimp only
    rcases h with h | h <;> simp [h]

/-- Witness for C6: an expired certificate with the correct password gives
false, and a malformed-bundle exception gives false. -/
theorem c6_validate_never_raises_witness :
    validate_certificate
      (.parsed (some "KEYPEM")
        (some { not_valid_before := 0, not_valid_after := 50,
                pem := "CERTPEM" })) 100 = false ∧
    validate_certificate (.raise "Could not deserialize PKCS12 data") 100 =
      false :=
  ⟨(c6_validate_never_raises 100).2.2 "KEYPEM"
      { not_valid_before := 0, not_valid_after := 50, pem := "CERTPEM" }
      (Or.inr (by decide)),
    (c6_validate_never_raises 100).1 "Could not deserialize PKCS12 data"⟩

/-- Claim C7: `extract_certificate_info` fails with three distinguishable
errors: any parse exception carrying the library's wrong-password markers
yields exactly the invalid-password message (never a different one); a
parse exception without those markers (malformed bundle) yields the
generic wrapper around the library message; a parsed bundle missing the
key or the certificate yields the missing-half message; and the three are
pairwise distinct whenever the library's malformed message does not itself
equal the missing-half text. -/
theorem c7_extract_error_kinds :
    (∀ msg, (strContains msg "Invalid password" ||
        strContains msg "mac verify failure") = true →
      extract_certificate_info (.raise msg) = .error invalidPasswordMsg) ∧
    (∀ msg, (strContains msg "Invalid password" ||
        strContains msg "mac verify failure") = false →
      extract_certificate_info (.raise msg) =
        .error ("인증서 처리 실패: " ++ msg)) ∧
    (∀ (keyPem : Option String) (cert : Option CertData),
      keyPem = none ∨ cert = none →
      extract_certificate_info (.parsed keyPem cert) =
        .error missingKeyCertMsg) ∧
    invalidPasswordMsg ≠ missingKeyCertMsg ∧
    (∀ msg, (strContains msg "Invalid password" ||
        strContains msg "mac verify failure") = false →
      msg ≠ "인증서 또는 개인키를 찾을 수 없습니다" →
      "인증서 처리 실패: " ++ msg ≠ invalidPasswordMsg ∧
      "인증서 처리 실패: " ++ msg ≠ missingKeyCertMsg) := by
  have hmarkers : (strContains "인증서 또는 개인키를 찾을 수 없습니다" "Invalid password" ||
      strContains "인증서 또는 개인키를 찾을 수 없습니다" "mac verify failure") = false := by
    decide
  refine ⟨?_, ?_, ?_, by decide, ?_⟩
  · intro msg h
    unfold extract_certificate_info
    dsimp only
    rw [if_pos h]
  · intro msg h
    unfold extract_certificate_info
    dsimp only
    rw [if_neg (by rw [h]; exact Bool.false_ne_true)]
  · intro keyPem cert h
    have hbody : ∀ (keyPem : Option String) (cert : Option CertData),
        keyPem = none ∨ cert = none →
        extract_certificate_info (.parsed keyPem cert) =
          (if strContains "인증서 또는 개인키를 찾을 수 없습니다" "Invalid password" ||
              strContains "인증서 또는 개인키를 찾을 수 없습니다" "mac verify failure" then
            (Except.error invalidPasswordMsg : Except String (String × String))
          else Except.error ("인증서 처리 실패: " ++
            "인증서 또는 개인키를 찾을 수 없습니다")) := by
      intro keyPem cert h
      rcases h with h | h
      · subst h
        cases cert <;> rfl
      · subst h
        cases keyPem <;> rfl
    rw [hbody keyPem cert h,
      if_neg (by rw [hmarkers]; exact Bool.false_ne_true)]
    rfl
  · intro msg _ hmsg
    constructor
    · intro heq
      have hd := congrArg String.data heq
      rw [String.data_append] at hd
      have h11 : ("인증서 처리 실패: ".data).length = 11 := by decide
      have htake := congrArg (List.take 11) hd
      rw [List.take_left' h11] at htake
      exact absurd htake (by decide)
    · intro heq
      have hd := congrArg String.data heq
      rw [String.data_append] at hd
      have hm : missingKeyCertMsg.data =
          "인증서 처리 실패: ".data ++ "인증서 또는 개인키를 찾을 수 없습니다".data := by decide
      rw [hm] at hd
      have hcancel := List.append_cancel_left hd
      exact hmsg (String.ext hcancel)

/-- Witness for C7 at concrete messages: the library's wrong-password
message maps to the invalid-password error, a deserialization failure maps
to the generic wrapper, and a bundle whose certificate is missing maps to
the missing-half error. -/
theorem c7_extract_error_kinds_witness :
    extract_certificate_info (.raise "Invalid password or PKCS12 data") =
      .error invalidPasswordMsg ∧
    extract_certificate_info (.raise "Could not deserialize PKCS12 data") =
      .error ("인증서 처리 실패: " ++ "Could not deserialize PKCS12 data") ∧
    extract_certificate_info (.parsed (some "KEYPEM") none) =
      .error missingKeyCertMsg :=
  ⟨c7_extract_error_kinds.1 "Invalid password or PKCS12 data" (by decide),
    c7_extract_error_kinds.2.1 "Could not deserialize PKCS12 data" (by decide),
    c7_extract_error_kinds.2.2.1 (some "KEYPEM") none (Or.inr rfl)⟩

/-! ### The gateway token cache (`HyphenService._get_access_token`)

The coroutine has exactly one await boundary: the POST to the token
endpoint.  A caller therefore takes at most two atomic steps — the
synchronous cache check up to the suspension point, and the response
processing plus cache write after resumption — and the event loop may
interleave the steps of concurrent callers arbitrarily.  The method body
contains no lock or single-flight guard. -/

/-- The shared mutable state: `self._access_token`,
`self._token_expires_at`, plus a counter of token-endpoint requests. -/
structure TokenState where
  access_token : Option String
  token_expires_at : Option Int
  fetchCount : Nat
deriving DecidableEq, Repr

/-- A caller's position inside `_get_access_token`. -/
inductive CallerPC where
  | start
  | fetching
  | done (tok : String)
deriving DecidableEq, Repr

/-- One atomic step of a caller.  From `start`: the cache check — Python's
`if self._access_token and self._token_expires_at:` (an empty-string token
is falsy) then `if datetime.now() < self._token_expires_at:` — either
returns the cached token or suspends on the POST.  From `fetching`: the
i-th response (`fetchTok i`, `expiresIn i`) is received, the cache is
written with expiry `now + (expires_in - 300)`, and the token returned. -/
def callerStep (now : Int) (fetchTok : Nat → String) (expiresIn : Nat → Int) :
    CallerPC → TokenState → CallerPC × TokenState
  | .start, st =>
    match st.access_token, st.token_expires_at with
    | some t, some e =>
      if t ≠ "" then
        if now < e then (.done t, st) else (.fetching, st)
      else (.fetching, st)
    | _, _ => (.fetching, st)
  | .fetching, st =>
    (.done (fetchTok st.fetchCount),
     { access_token := some (fetchTok st.fetchCount)
       token_expires_at := some (now + (expiresIn st.fetchCount - 300))
       fetchCount := st.fetchCount + 1 })
  | .done t, st => (.done t, st)

/-- Run two concurrent callers under an interleaving schedule (`true` steps
the first caller, `false` the second). -/
def runSched (now : Int) (fetchTok : Nat → String) (expiresIn : Nat → Int) :
    List Bool → CallerPC × CallerPC × TokenState →
      CallerPC × CallerPC × TokenState
  | [], s => s
  | b :: rest, (pa, pb, st) =>
    if b then
      let r := callerStep now fetchTok expiresIn pa st
      runSched now fetchTok expiresIn rest (r.1, pb, r.2)
    else
      let r := callerStep now fetchTok expiresIn pb st
      runSched now fetchTok expiresIn rest (pa, r.1, r.2)

/-- Counterexample for claim C8 as stated: with an empty cache, the
interleaving in which both callers pass the cache check before either
completes its POST performs two token-endpoint requests, and the callers
proceed with different token values — `_get_access_token` has no
single-flight guard. -/
theorem c8_counterexample :
    (runSched 0 (fun i => if i == 0 then "tokenA" else "tokenB")
      (fun _ => 604800) [true, false, true, false]
      (.start, .start,
        { access_token := none, token_expires_at := none, fetchCount := 0 })
      ).2.2.fetchCount = 2 ∧
    (runSched 0 (fun i => if i == 0 then "tokenA" else "tokenB")
      (fun _ => 604800) [true, false, true, false]
      (.start, .start,
        { access_token := none, token_expires_at := none, fetchCount := 0 })
      ).1 = CallerPC.done "tokenA" ∧
    (runSched 0 (fun i => if i == 0 then "tokenA" else "tokenB")
      (fun _ => 604800) [true, false, true, false]
      (.start, .start,
        { access_token := none, token_expires_at := none, fetchCount := 0 })
      ).2.1 = CallerPC.done "tokenB" ∧
    ("tokenA" : String) ≠ "tokenB" := by
  refine ⟨rfl, rfl, rfl, by decide⟩

theorem callerStep_cached (now : Int) (ft : Nat → String) (ei : Nat → Int)
    (t : String) (e : Int) (c0 : Nat) (ht : t ≠ "") (he : now < e)
    (pc : CallerPC) (hpc : pc = CallerPC.start ∨ pc = CallerPC.done t) :
    callerStep now ft ei pc
        { access_token := some t, token_expires_at := some e,
          fetchCount := c0 } =
      (CallerPC.done t,
       { access_token := some t, token_expires_at := some e,
         fetchCount := c0 }) := by
  rcases hpc with h | h <;> subst h
  · unfold callerStep
    dsimp only
    rw [if_pos ht, if_pos he]
  · rfl

theorem runSched_cached (now : Int) (ft : Nat → String) (ei : Nat → Int)
    (t : String) (e : Int) (c0 : Nat) (ht : t ≠ "") (he : now < e) :
    ∀ (sched : List Bool) (pa pb : CallerPC),
      (pa = CallerPC.start ∨ pa = CallerPC.done t) →
      (pb = CallerPC.start ∨ pb = CallerPC.done t) →
      (runSched now ft ei sched (pa, pb,
          { access_token := some t, token_expires_at := some e,
            fetchCount := c0 })).2.2 =
        { access_token := some t, token_expires_at := some e,
          fetchCount := c0 } ∧
      ((runSched now ft ei sched (pa, pb,
          { access_token := some t, token_expires_at := some e,
            fetchCount := c0 })).1 = CallerPC.start ∨
       (runSched now ft ei sched (pa, pb,
          { access_token := some t, token_expires_at := some e,
            fetchCount := c0 })).1 = CallerPC.done t) ∧
      ((runSched now ft ei sched (pa, pb,
          { access_token := some t, token_expires_at := some e,
            fetchCount := c0 })).2.1 = CallerPC.start ∨
       (runSched now ft ei sched (pa, pb,
          { access_token := some t, token_expires_at := some e,
            fetchCount := c0 })).2.1 = CallerPC.done t) := by
  intro sched
  induction sched with
  | nil =>
    intro pa pb hpa hpb
    exact ⟨rfl, hpa, hpb⟩
  | cons b rest ih =>
    intro pa pb hpa hpb
    cases b with
    | true =>
      have hrun : runSched now ft ei (true :: rest) (pa, pb,
          { access_token := some t, token_expires_at := some e,
            fetchCount := c0 }) =
        runSched now ft ei rest
          ((callerStep now ft ei pa
            { access_token := some t, token_expires_at := some e,
              fetchCount := c0 }).1, pb,
           (callerStep now ft ei pa
            { access_token := some t, token_expires_at := some e,
              fetchCount := c0 }).2) := rfl
      rw [hrun, callerStep_cached now ft ei t e c0 ht he pa hpa]
      exact ih (CallerPC.done t) pb (Or.inr rfl) hpb
    | false =>
      have hrun : runSched now ft ei (false :: rest) (pa, pb,
          { access_token := some t, token_expires_at := some e,
            fetchCount := c0 }) =
        runSched now ft ei rest
          (pa, (callerStep now ft ei pb
            { access_token := some t, token_expires_at := some e,
              fetchCount := c0 }).1,
           (callerStep now ft ei pb
            { access_token := some t, token_expires_at := some e,
              fetchCount := c0 }).2) := rfl
      rw [hrun, callerStep_cached now ft ei t e c0 ht he pb hpb]
      exact ih pa (CallerPC.done t) hpa (Or.inr rfl)

/-- Claim C8 (amended): the token cache has no single-flight discipline —
two concurrent cold-cache callers that both pass the check before either
POST completes each issue a token-endpoint request and may obtain distinct
tokens; but a cached non-empty token whose recorded expiry (set at fetch
time to `now + expires_in − 300` seconds) has not passed is reused by every
caller under every interleaving with no network fetch, all callers ending
with that token. -/
theorem c8_amended_token_cache (now : Int) (ft : Nat → String)
    (ei : Nat → Int) (sched : List Bool) (t : String) (e : Int) (c0 : Nat)
    (ht : t ≠ "") (he : now < e) :
    (runSched now ft ei sched (.start, .start,
        { access_token := some t, token_expires_at := some e,
          fetchCount := c0 })).2.2 =
      { access_token := some t, token_expires_at := some e,
        fetchCount := c0 } ∧
    (∀ tok, (runSched now ft ei sched (.start, .start,
        { access_token := some t, token_expires_at := some e,
          fetchCount := c0 })).1 = CallerPC.done tok → tok = t) ∧
    (∀ tok, (runSched now ft ei sched (.start, .start,
        { access_token := some t, token_expires_at := some e,
          fetchCount := c0 })).2.1 = CallerPC.done tok → tok = t) ∧
    (runSched 0 (fun i => if i == 0 then "A" else "B") (fun _ => 604800)
      [true, false, true, false]
      (.start, .start,
        { access_token := none, token_expires_at := none, fetchCount := 0 })
      ).2.2.fetchCount = 2 := by
  obtain ⟨hst, hpa, hpb⟩ := runSched_cached now ft ei t e c0 ht he sched
    CallerPC.start CallerPC.start (Or.inl rfl) (Or.inl rfl)
  refine ⟨hst, ?_, ?_, rfl⟩
  · intro tok htok
    rcases hpa with h | h
    · rw [htok] at h
      cases h
    · rw [htok] at h
      cases h
      rfl
  · intro tok htok
    rcases hpb with h | h
    · rw [htok] at h
      cases h
    · rw [htok] at h
      cases h
      rfl

/-- Witness for the amended C8: a concrete warm cache is reused untouched
across an interleaving of both callers. -/
theorem c8_amended_token_cache_witness :
    ("cachedToken" : String) ≠ "" ∧ (0 : Int) < 99 ∧
    (runSched 0 (fun _ => "fresh") (fun _ => 604800) [true, false, true]
      (.start, .start,
        { access_token := some "cachedToken", token_expires_at := some 99,
          fetchCount := 0 })).2.2 =
      { access_token := some "cachedToken", token_expires_at := some 99,
        fetchCount := 0 } :=
  ⟨by decide, by decide,
    (c8_amended_token_cache 0 (fun _ => "fresh") (fun _ => 604800)
      [true, false, true] "cachedToken" 99 0 (by decide) (by decide)).1⟩

end RehabDocs
